import Mathlib

/-!
Verification development for the slide-deck-pipeline repository.

The Python sources are shallow-embedded below.  Machine-level facts used by
the embedding:

* Python `str` values are modelled as Lean `String`/`List Char`; the byte
  strings fed to `hashlib.sha256` are modelled as `List Nat` (one entry per
  byte) produced by a UTF-8 encoder.
* `hashlib.sha256(...).hexdigest()` is modelled by a full executable
  SHA-256 implementation over `Nat` arithmetic with explicit `% 2^32`.
* The python-pptx / lxml / csv library objects are modelled at their
  interface boundary: a `Shape` carries the fields the repository reads
  (`has_text_frame`, `is_placeholder`, `placeholder_format.type`, `name`,
  `shape_id`, geometry, paragraph `(level, text)` pairs, table and chart
  text, picture bytes, nested group shapes), a `Slide` carries its shape
  list, notes state and relationship set, and a CSV file is a list of
  already-field-split records.
-/

set_option maxRecDepth 100000

namespace pystr

/-- Python's default whitespace set for `str.strip` / `str.split`
(space, tab, newline, carriage return, vertical tab, form feed). -/
def isPySpace (c : Char) : Bool :=
  c = ' ' || c = '\t' || c = '\n' || c = '\x0d' || c = '\x0b' || c = '\x0c'

/-- `str.lstrip()` on a character list. -/
def lstripChars (l : List Char) : List Char :=
  l.dropWhile isPySpace

/-- `str.rstrip()` on a character list. -/
def rstripChars (l : List Char) : List Char :=
  (l.reverse.dropWhile isPySpace).reverse

/-- `str.strip()` on a character list. -/
def stripChars (l : List Char) : List Char :=
  rstripChars (lstripChars l)

/-- `str.strip()`. -/
def pyStrip (s : String) : String :=
  ⟨stripChars s.data⟩

/-- `str.rstrip()`. -/
def pyRstrip (s : String) : String :=
  ⟨rstripChars s.data⟩

/-- `str.lstrip("\t")`: drop leading tab characters. -/
def lstripTabs (l : List Char) : List Char :=
  l.dropWhile (· = '\t')

/-- `str.lower()` restricted to ASCII, which is all the repository compares
(`edit_status` keywords and placeholder enum names are ASCII). -/
def pyLower (s : String) : String :=
  ⟨s.data.map Char.toLower⟩

/-- Helper for `pyWords`: `acc` holds the reversed characters of the word
currently being scanned. -/
def pyWordsAux : List Char → List Char → List (List Char)
  | [], acc => if acc.isEmpty then [] else [acc.reverse]
  | c :: rest, acc =>
    if isPySpace c then
      if acc.isEmpty then pyWordsAux rest []
      else acc.reverse :: pyWordsAux rest []
    else pyWordsAux rest (c :: acc)

/-- Split a character list into maximal runs of non-whitespace characters,
i.e. Python's argument-free `str.split()`. -/
def pyWords (l : List Char) : List (List Char) :=
  pyWordsAux l []

/-- `" ".join(text.split())`: collapse internal whitespace runs to single
spaces. -/
def collapseWhitespace (l : List Char) : List Char :=
  List.intercalate [' '] (pyWords l)

/-- `text.split("\n")` on a character list. -/
def splitLines (l : List Char) : List (List Char) :=
  l.splitOn '\n'

/-- `text.replace("\r\n", "\n").replace("\r", "\n")`: since every `"\r\n"`
contains the `"\r"` that the second replace rewrites to `"\n"` (and the
first replace maps `"\r\n"` to `"\n"` while the second then maps the
remaining lone `"\r"`s), the composition is equivalent to deleting every
`'\r'` that is directly followed by `'\n'` and rewriting every other
`'\r'` to `'\n'`. -/
def normalizeNewlines : List Char → List Char
  | [] => []
  | '\x0d' :: '\n' :: rest => '\n' :: normalizeNewlines rest
  | '\x0d' :: rest => '\n' :: normalizeNewlines rest
  | c :: rest => c :: normalizeNewlines rest

/-- Python `str.isdigit` restricted to ASCII decimal digits: nonempty and
all characters in `'0'..'9'`. -/
def pyIsDigit (s : String) : Bool :=
  !s.data.isEmpty && s.data.all (fun c => c.isDigit)

/-- Value of an ASCII digit character. -/
def digitVal (c : Char) : Nat :=
  c.toNat - 48

/-- `int(s)` for a digit string. -/
def digitsToNat (l : List Char) : Nat :=
  l.foldl (fun acc c => acc * 10 + digitVal c) 0

/-- Fuel-driven digit expansion; the fuel bounds the recursion depth so
the definition is structurally recursive (and hence kernel-reducible).
Any fuel `≥ n` suffices, since `n / 10 < n` for `n ≥ 10`, so the zero-fuel
branch is never reached by `natToDigitChars`. -/
def natToDigitCharsAux : Nat → Nat → List Char
  | 0, n => [Nat.digitChar (n % 10)]
  | fuel + 1, n =>
    if n < 10 then [Nat.digitChar n]
    else natToDigitCharsAux fuel (n / 10) ++ [Nat.digitChar (n % 10)]

/-- Decimal digit characters of a natural number, most significant first
(Python `str(n)` for `n ≥ 0`). -/
def natToDigitChars (n : Nat) : List Char :=
  natToDigitCharsAux n n

/-- Python `str(n)` for a natural number. -/
def natToStr (n : Nat) : String :=
  ⟨natToDigitChars n⟩

/-- Python `str(i)` for an integer. -/
def intToStr (i : Int) : String :=
  if i < 0 then "-" ++ natToStr i.natAbs else natToStr i.natAbs

end pystr

namespace hashlib

/-- 2^32, the word modulus of SHA-256. -/
def M32 : Nat := 4294967296

/-- Right rotation of a 32-bit word. -/
def rotr (n x : Nat) : Nat :=
  ((x >>> n) ||| (x <<< (32 - n))) % M32

/-- The 64 SHA-256 round constants. -/
def K : List Nat :=
  [1116352408, 1899447441, 3049323471, 3921009573, 961987163,
   1508970993, 2453635748, 2870763221, 3624381080, 310598401,
   607225278, 1426881987, 1925078388, 2162078206, 2614888103,
   3248222580, 3835390401, 4022224774, 264347078, 604807628,
   770255983, 1249150122, 1555081692, 1996064986, 2554220882,
   2821834349, 2952996808, 3210313671, 3336571891, 3584528711,
   113926993, 338241895, 666307205, 773529912, 1294757372,
   1396182291, 1695183700, 1986661051, 2177026350, 2456956037,
   2730485921, 2820302411, 3259730800, 3345764771, 3516065817,
   3600352804, 4094571909, 275423344, 430227734, 506948616,
   659060556, 883997877, 958139571, 1322822218, 1537002063,
   1747873779, 1955562222, 2024104815, 2227730452, 2361852424,
   2428436474, 2756734187, 3204031479, 3329325298]

/-- The eight-word SHA-256 chaining state. -/
structure St where
  s0 : Nat
  s1 : Nat
  s2 : Nat
  s3 : Nat
  s4 : Nat
  s5 : Nat
  s6 : Nat
  s7 : Nat

/-- Initial SHA-256 state. -/
def initSt : St :=
  ⟨1779033703, 3144134277, 1013904242, 2773480762,
   1359893119, 2600822924, 528734635, 1541459225⟩

/-- Pack four big-endian bytes into one word. -/
def word4 (a b c d : Nat) : Nat :=
  a * 16777216 + b * 65536 + c * 256 + d

/-- The first sixteen schedule words of a 64-byte block. -/
def blockWords : List Nat → List Nat
  | a :: b :: c :: d :: rest => word4 a b c d :: blockWords rest
  | _ => []

/-- Extend sixteen schedule words to sixty-four. -/
def extendWords (ws : List Nat) : List Nat :=
  (List.range 48).foldl
    (fun acc i =>
      let w15 := acc.getD (i + 1) 0
      let w2 := acc.getD (i + 14) 0
      let w16 := acc.getD i 0
      let w7 := acc.getD (i + 9) 0
      let sig0 := (rotr 7 w15) ^^^ (rotr 18 w15) ^^^ (w15 >>> 3)
      let sig1 := (rotr 17 w2) ^^^ (rotr 19 w2) ^^^ (w2 >>> 10)
      acc ++ [(w16 + sig0 + w7 + sig1) % M32])
    ws

/-- One SHA-256 round. -/
def round (st : St) (k w : Nat) : St :=
  let S1 := (rotr 6 st.s4) ^^^ (rotr 11 st.s4) ^^^ (rotr 25 st.s4)
  let ch := (st.s4 &&& st.s5) ^^^ ((st.s4 ^^^ (M32 - 1)) &&& st.s6)
  let temp1 := (st.s7 + S1 + ch + k + w) % M32
  let S0 := (rotr 2 st.s0) ^^^ (rotr 13 st.s0) ^^^ (rotr 22 st.s0)
  let maj := (st.s0 &&& st.s1) ^^^ (st.s0 &&& st.s2) ^^^ (st.s1 &&& st.s2)
  let temp2 := (S0 + maj) % M32
  ⟨(temp1 + temp2) % M32, st.s0, st.s1, st.s2,
   (st.s3 + temp1) % M32, st.s4, st.s5, st.s6⟩

/-- Compress one 64-byte block into the chaining state. -/
def compress (st : St) (block : List Nat) : St :=
  let ws := extendWords (blockWords block)
  let e := (List.range 64).foldl
    (fun acc i => round acc (K.getD i 0) (ws.getD i 0)) st
  ⟨(st.s0 + e.s0) % M32, (st.s1 + e.s1) % M32, (st.s2 + e.s2) % M32,
   (st.s3 + e.s3) % M32, (st.s4 + e.s4) % M32, (st.s5 + e.s5) % M32,
   (st.s6 + e.s6) % M32, (st.s7 + e.s7) % M32⟩

/-- SHA-256 padding: append `0x80`, zero bytes to 56 mod 64, then the
bit length as eight big-endian bytes. -/
def padMessage (msg : List Nat) : List Nat :=
  let L := msg.length
  let zeros := (119 - (L % 64)) % 64
  msg ++ [128] ++ List.replicate zeros 0 ++
    (List.range 8).map (fun i => ((8 * L) >>> (56 - 8 * i)) % 256)

/-- Fuel-driven 64-byte chunking; the fuel bounds the number of chunks so
the definition is structurally recursive (and hence kernel-reducible).
Any fuel `≥ length` suffices since each step drops 64 ≥ 1 elements, so the
zero-fuel branch is never reached by `chunk64`. -/
def chunk64Aux : Nat → List Nat → List (List Nat)
  | 0, _ => []
  | _, [] => []
  | fuel + 1, c :: rest => (c :: rest).take 64 :: chunk64Aux fuel ((c :: rest).drop 64)

/-- Split a padded message into 64-byte blocks. -/
def chunk64 (l : List Nat) : List (List Nat) :=
  chunk64Aux l.length l

/-- SHA-256 of a byte sequence, as the final eight-word state. -/
def sha256St (msg : List Nat) : St :=
  (chunk64 (padMessage msg)).foldl compress initSt

/-- Eight lowercase hex characters of one 32-bit word. -/
def hexWord (w : Nat) : List Char :=
  (List.range 8).map (fun i => Nat.digitChar ((w >>> (28 - 4 * i)) % 16))

/-- `hashlib.sha256(msg).hexdigest()`: 64 lowercase hex characters. -/
def sha256hex (msg : List Nat) : String :=
  let st := sha256St msg
  ⟨hexWord st.s0 ++ hexWord st.s1 ++ hexWord st.s2 ++ hexWord st.s3 ++
   hexWord st.s4 ++ hexWord st.s5 ++ hexWord st.s6 ++ hexWord st.s7⟩

/-- UTF-8 encoding of one character, as byte values. -/
def utf8Char (c : Char) : List Nat :=
  let n := c.toNat
  if n < 128 then [n]
  else if n < 2048 then [192 ||| (n >>> 6), 128 ||| (n &&& 63)]
  else if n < 65536 then
    [224 ||| (n >>> 12), 128 ||| ((n >>> 6) &&& 63), 128 ||| (n &&& 63)]
  else
    [240 ||| (n >>> 18), 128 ||| ((n >>> 12) &&& 63),
     128 ||| ((n >>> 6) &&& 63), 128 ||| (n &&& 63)]

/-- `s.encode("utf-8")` as a byte-value list. -/
def utf8 (s : String) : List Nat :=
  s.data.flatMap utf8Char

/-- `hashlib.sha256(s.encode("utf-8")).hexdigest()`. -/
def sha256hexOfString (s : String) : String :=
  sha256hex (utf8 s)

end hashlib

namespace csv_schema

/-- The fixed column schema of `slide_deck_pipeline/csv_schema.py`. -/
def CSV_COLUMNS : List String :=
  ["source_pptx", "source_slide_index", "slide_hash", "master_name",
   "layout_type", "asset_types", "title_text", "body_text", "notes_text"]

/-- One line of `normalize_text`: `rstrip`, drop if blank after `strip`,
count leading tabs, collapse internal whitespace, re-prefix the tabs. -/
def normalizeLine (raw : List Char) : Option String :=
  let line := pystr.rstripChars raw
  if (pystr.stripChars line).isEmpty then none
  else
    let leadingTabs := (line.takeWhile (· = '\t')).length
    let content := pystr.collapseWhitespace (pystr.stripChars (pystr.lstripTabs line))
    some ⟨List.replicate leadingTabs '\t' ++ content⟩

/-- `csv_schema.normalize_text`.  The `if not text` guard returns `""` for
the empty string (the only falsy `str`); the `None` case of the Python
`str | None` argument also lands there and is represented by `""`. -/
def normalize_text (text : String) : String :=
  if text = "" then ""
  else
    let cleaned := pystr.normalizeNewlines text.data
    let lines := (pystr.splitLines cleaned).filterMap normalizeLine
    String.intercalate "\n" lines

/-- `csv_schema.compute_text_hash`: first 16 hex characters of the SHA-256
of the UTF-8 normalized text. -/
def compute_text_hash (text : String) : String :=
  (hashlib.sha256hexOfString (normalize_text text)).take 16

/-- Python `repr` escaping of one character inside a `q`-quoted string
literal.  The repository only ever hashes `repr` output of printable ASCII
payloads (hex digests, role keywords, type names, decimal geometry), so
the `\xNN` escapes for non-printable characters are outside the modelled
input range and are not rendered. -/
def pyReprEsc (q c : Char) : List Char :=
  if c = '\\' then ['\\', '\\']
  else if c = q then ['\\', q]
  else if c = '\n' then ['\\', 'n']
  else if c = '\x0d' then ['\\', 'r']
  else if c = '\t' then ['\\', 't']
  else [c]

/-- Python `repr` of a `str`: single-quoted unless the string contains a
single quote but no double quote. -/
def pyReprStr (s : String) : String :=
  let q := if s.data.contains '\'' && !s.data.contains '"' then '"' else '\''
  ⟨q :: (s.data.flatMap (pyReprEsc q)) ++ [q]⟩

/-- Python `repr` of a tuple, given the `repr` of each element: `()` when
empty, a trailing comma for a 1-tuple. -/
def pyReprTuple (items : List String) : String :=
  match items with
  | [] => "()"
  | [x] => "(" ++ x ++ ",)"
  | xs => "(" ++ String.intercalate ", " xs ++ ")"

/-- Python `repr` of one `(relationship_type, content_hash)` pair. -/
def pyReprStrPair (p : String × String) : String :=
  "(" ++ pyReprStr p.1 ++ ", " ++ pyReprStr p.2 ++ ")"

/-- `csv_schema.normalize_slide_xml`, modelled at the lxml boundary.  Every
payload this repository passes here is the Python `repr` of a shape-token
tuple (`compute_slide_hash_from_slide`), which begins with `'('` and is
not well-formed XML, so `lxml.etree.fromstring` raises `XMLSyntaxError`
and the function returns its input unchanged; the XML-signature branch is
dead on all modelled inputs, so the model is the identity on the payload
(the `rel_hashes` argument is only read inside that dead branch). -/
def normalize_slide_xml (slide_xml : List Nat)
    (rel_hashes : Option (List (String × String))) : List Nat :=
  slide_xml

/-- `csv_schema.compute_slide_hash`: hash the normalized payload, with the
relationship token list appended when `rel_tokens` is truthy (not `None`
and nonempty) and the normalized notes appended when nonempty. -/
def compute_slide_hash (slide_xml : List Nat) (notes_text : String)
    (rel_hashes : Option (List (String × String)))
    (rel_tokens : Option (List (String × String))) : String :=
  let normalized_notes := normalize_text notes_text
  let payload := normalize_slide_xml slide_xml rel_hashes
  let payload :=
    match rel_tokens with
    | some toks =>
      if toks.isEmpty then payload
      else payload ++ hashlib.utf8 "\n--rels--\n" ++
        hashlib.utf8 (pyReprTuple (toks.map pyReprStrPair))
    | none => payload
  let payload :=
    if normalized_notes = "" then payload
    else payload ++ hashlib.utf8 "\n--notes--\n" ++ hashlib.utf8 normalized_notes
  (hashlib.sha256hex payload).take 16

/-- Structured CSV errors; the Python code raises `ValueError` with an
interpolated message, which the model records as the offending data. -/
inductive CsvError where
  | headerMismatch (expected got : List String)
  | rowWidth (expected : List String) (got : List String)
  deriving DecidableEq

/-- `csv_schema.read_slide_csv`, over the already-field-split records the
`csv.reader` boundary produces.  Empty rows and all-blank rows are
skipped, rows whose stripped fields equal the header are skipped, rows of
any other width than the schema's raise, and every other row is zipped
against the fixed column order. -/
def readRowStep (acc : List (List (String × String))) (row : List String) :
    Except CsvError (List (List (String × String))) :=
  if row.isEmpty then .ok acc
  else
    let normalized := row.map pystr.pyStrip
    if normalized.all (· = "") then .ok acc
    else if normalized = CSV_COLUMNS then .ok acc
    else if row.length ≠ CSV_COLUMNS.length then
      .error (.rowWidth CSV_COLUMNS row)
    else .ok (acc ++ [CSV_COLUMNS.zip row])

/-- The loop of `csv_schema.read_slide_csv` as a fold over `readRowStep`. -/
def read_slide_csv (rows : List (List String)) :
    Except CsvError (List (List (String × String))) :=
  rows.foldlM readRowStep []

end csv_schema

namespace pptxmodel

/-- The `MSO_SHAPE_TYPE` members the repository compares against, plus a
catch-all carrying the member name. -/
inductive MsoShapeType where
  | group
  | picture
  | textBox
  | autoShape
  | placeholder
  | mso (nm : String)
  deriving DecidableEq

/-- The `name` attribute of an `MSO_SHAPE_TYPE` member. -/
def MsoShapeType.enumName : MsoShapeType → String
  | .group => "GROUP"
  | .picture => "PICTURE"
  | .textBox => "TEXT_BOX"
  | .autoShape => "AUTO_SHAPE"
  | .placeholder => "PLACEHOLDER"
  | .mso nm => nm

/-- The `PP_PLACEHOLDER` members the repository compares against, plus a
catch-all `ph` carrying an integer value and name; `ph` represents members
other than the six named ones.  python-pptx's `PP_PLACEHOLDER` defines
`OBJECT` but not `CONTENT` or `TEXT`, so the `getattr`-guarded body-type
list in the sources resolves to `[BODY, OBJECT]`. -/
inductive PpPlaceholderType where
  | title
  | centerTitle
  | subtitle
  | body
  | object
  | footer
  | ph (v : Nat) (nm : String)
  deriving DecidableEq

/-- Integer value of a `PP_PLACEHOLDER` member (`ppPlaceholderTitle = 13`,
`ppPlaceholderCenterTitle = 0`, `ppPlaceholderSubtitle = 4`,
`ppPlaceholderBody = 2`, `ppPlaceholderObject = 7`,
`ppPlaceholderFooter = 15`); Python `if not member` tests this value's
truthiness. -/
def PpPlaceholderType.val : PpPlaceholderType → Nat
  | .title => 13
  | .centerTitle => 0
  | .subtitle => 4
  | .body => 2
  | .object => 7
  | .footer => 15
  | .ph v _ => v

/-- The `name` attribute of a `PP_PLACEHOLDER` member. -/
def PpPlaceholderType.enumName : PpPlaceholderType → String
  | .title => "TITLE"
  | .centerTitle => "CENTER_TITLE"
  | .subtitle => "SUBTITLE"
  | .body => "BODY"
  | .object => "OBJECT"
  | .footer => "FOOTER"
  | .ph _ nm => nm

/-- The non-recursive data of one python-pptx shape, as read by the
repository.  Geometry is `int(getattr(shape, ..., 0) or 0)`, so a missing
or `None` coordinate is already folded to `0` here.  A paragraph is its
`(level, text)` pair; a table is the row-major list of its cells' paragraph
lists; `imageBlob` is `shape.image.blob` for pictures (`none` when the
`image` attribute or its blob is missing). -/
structure ShapeFields where
  shapeType : Option MsoShapeType
  isPlaceholder : Bool
  placeholderType : Option PpPlaceholderType
  name : String
  shapeId : Nat
  hasTextFrame : Bool
  paragraphs : List (Nat × String)
  hasTable : Bool
  tableCells : List (List (Nat × String))
  hasChart : Bool
  chartHasTitle : Bool
  chartTitleParagraphs : List (Nat × String)
  left : Int
  top : Int
  width : Int
  height : Int
  imageBlob : Option (List Nat)
  deriving DecidableEq

mutual
/-- A python-pptx shape: its fields plus (for group shapes) its nested
shape collection.  `ShapeList` is a specialized list so that the tree
walks below are structurally recursive and kernel-reducible. -/
inductive Shape where
  | mk (fields : ShapeFields) (children : ShapeList)
  deriving DecidableEq

/-- Nested shape collection of a group shape. -/
inductive ShapeList where
  | nil
  | cons (hd : Shape) (tl : ShapeList)
  deriving DecidableEq
end

/-- Field projection for `Shape`. -/
def Shape.fields : Shape → ShapeFields
  | .mk f _ => f

/-- Children projection for `Shape`. -/
def Shape.children : Shape → ShapeList
  | .mk _ cs => cs

/-- A `ShapeList` as an ordinary list (used for top-level iteration). -/
def ShapeList.toList : ShapeList → List Shape
  | .nil => []
  | .cons hd tl => hd :: tl.toList

/-- One slide-part relationship, as exposed by python-pptx: its id, its
relationship type, whether it is external, the referenced part's bytes
(internal) and the literal target string (external). -/
structure Rel where
  rId : String
  reltype : String
  isExternal : Bool
  targetBytes : List Nat
  targetRef : String
  deriving DecidableEq

/-- A python-pptx slide, as read and written by the repository: its
top-level shapes, its part's XML bytes, its notes state, and its
relationship set. -/
structure Slide where
  shapes : List Shape
  xmlBlob : List Nat
  hasNotesSlide : Bool
  notesText : String
  rels : List Rel
  deriving DecidableEq

/-- A shape with every capability absent (the `getD` default for
index-based shape access; the indices stored in box metadata are always in
range, so this default is never read). -/
def emptyShape : Shape :=
  .mk ⟨none, false, none, "", 0, false, [], false, [], false, false, [],
       0, 0, 0, 0, none⟩ .nil

/-- A slide with no content (the `getD` default for index-based slide
access; the apply loop bounds-checks indices first, so this default is
never read). -/
def emptySlide : Slide :=
  ⟨[], [], false, "", []⟩

end pptxmodel

namespace pptx_text

open pptxmodel

/-- `pptx_text.extract_paragraph_lines`: strip each paragraph's text, skip
blank paragraphs, and prefix `paragraph.level` tabs. -/
def extract_paragraph_lines (paragraphs : List (Nat × String)) : List String :=
  paragraphs.filterMap
    (fun p =>
      let text := pystr.pyStrip p.2
      if text = "" then none
      else some ((⟨List.replicate p.1 '\t'⟩ : String) ++ text))

/-- `pptx_text.extract_table_text`: paragraph lines of every cell in
row-major order.  The model stores the cells flattened in exactly that
iteration order; cells whose `text_frame` is missing are not stored. -/
def extract_table_text (cells : List (List (Nat × String))) : List String :=
  cells.foldl (fun acc cell => acc ++ extract_paragraph_lines cell) []

/-- `pptx_text.extract_chart_title_text`: title paragraph lines when the
chart reports `has_title` and a title text frame is present (absence of
the title object or its text frame is folded into `chartHasTitle`). -/
def extract_chart_title_text (f : ShapeFields) : List String :=
  if !f.chartHasTitle then []
  else extract_paragraph_lines f.chartTitleParagraphs

mutual
/-- `pptx_text.extract_shape_text`: group shapes yield their children's
text (`hasattr(shape, "shapes")` always holds in the model); other shapes
concatenate text-frame, table and chart-title lines. -/
def extract_shape_text : Shape → List String
  | .mk f cs =>
    if f.shapeType = some .group then extractShapeTextList cs
    else
      (if f.hasTextFrame then extract_paragraph_lines f.paragraphs else []) ++
      (if f.hasTable then extract_table_text f.tableCells else []) ++
      (if f.hasChart then extract_chart_title_text f else [])

/-- Text lines of a nested shape collection, in order. -/
def extractShapeTextList : ShapeList → List String
  | .nil => []
  | .cons hd tl => extract_shape_text hd ++ extractShapeTextList tl
end

/-- `pptx_text.extract_notes_text`: empty when the slide has no notes
slide (a notes slide's text frame is modelled as always present). -/
def extract_notes_text (slide : Slide) : String :=
  if !slide.hasNotesSlide then "" else slide.notesText

end pptx_text

namespace pptx_hash

open pptxmodel

/-- `pptx_hash.extract_slide_xml`: the slide part's bytes. -/
def extract_slide_xml (slide : Slide) : List Nat :=
  slide.xmlBlob

/-- `pptx_hash.shape_type_name`: `"unknown"` when `shape_type` is `None`,
otherwise the enum member's name. -/
def shape_type_name (f : ShapeFields) : String :=
  match f.shapeType with
  | none => "unknown"
  | some t => t.enumName

/-- `pptx_hash.shape_geometry`: `(left, top, width, height)` as integers. -/
def shape_geometry (f : ShapeFields) : Int × Int × Int × Int :=
  (f.left, f.top, f.width, f.height)

/-- `layout_classifier.classify_placeholder_role`: title/center-title →
`"title"`, subtitle → `"subtitle"`, body-like (`BODY`, `OBJECT`; python-pptx
has no `CONTENT`/`TEXT` members, so the `getattr` guards skip them) →
`"body"`, otherwise `None`. -/
def classify_placeholder_role (pt : PpPlaceholderType) : Option String :=
  if pt = .title || pt = .centerTitle then some "title"
  else if pt = .subtitle then some "subtitle"
  else if pt = .body || pt = .object then some "body"
  else none

/-- `pptx_hash.placeholder_role`: empty for non-placeholders and for
placeholder types outside the classifier (including a missing type, which
in Python reaches `classify_placeholder_role(None)` and falls through to
`None`). -/
def placeholder_role (f : ShapeFields) : String :=
  if !f.isPlaceholder then ""
  else
    match f.placeholderType with
    | none => ""
    | some pt => (classify_placeholder_role pt).getD ""

/-- `pptx_hash.hash_bytes`: first 16 hex characters of SHA-256. -/
def hash_bytes (payload : List Nat) : String :=
  (hashlib.sha256hex payload).take 16

/-- `pptx_hash.hash_image_blob`: empty unless the shape is a picture with a
nonempty blob. -/
def hash_image_blob (f : ShapeFields) : String :=
  if f.shapeType ≠ some .picture then ""
  else
    match f.imageBlob with
    | none => ""
    | some b => if b.isEmpty then "" else hash_bytes b

/-- `pptx_hash.hash_shape_text`: empty when the shape yields no text lines,
otherwise the text hash of the newline-joined lines. -/
def hash_shape_text (s : Shape) : String :=
  let lines := pptx_text.extract_shape_text s
  if lines.isEmpty then ""
  else csv_schema.compute_text_hash (String.intercalate "\n" lines)

/-- `pptx_hash.shape_kind`: the first matching coarse kind. -/
def shape_kind (s : Shape) : String :=
  let f := s.fields
  if f.shapeType = some .group then "group"
  else if f.shapeType = some .picture then "picture"
  else if f.hasTable then "table"
  else if f.hasChart then "chart"
  else if f.isPlaceholder then "placeholder"
  else if f.hasTextFrame then "textbox"
  else "shape"

/-- One entry of the token list built by `build_shape_tokens`; in Python
these are plain tuples. -/
inductive ShapeToken where
  | groupStart (geom : Int × Int × Int × Int) (typeName : String)
  | groupEnd
  | shape (kind role : String) (geom : Int × Int × Int × Int)
      (textHash imageHash typeName : String)
  deriving DecidableEq

mutual
/-- The tokens one shape contributes: a group contributes its start
marker, its children's tokens and its end marker; any other shape
contributes one `shape` token. -/
def shapeTokens : Shape → List ShapeToken
  | .mk f cs =>
    let kind := shape_kind (.mk f cs)
    let geom := shape_geometry f
    if kind = "group" then
      .groupStart geom (shape_type_name f) :: (shapeTokensList cs ++ [.groupEnd])
    else
      [.shape kind (placeholder_role f) geom (hash_shape_text (.mk f cs))
        (hash_image_blob f) (shape_type_name f)]

/-- Tokens contributed by a nested shape collection, in order. -/
def shapeTokensList : ShapeList → List ShapeToken
  | .nil => []
  | .cons hd tl => shapeTokens hd ++ shapeTokensList tl
end

/-- `pptx_hash.build_shape_tokens`: the Python version appends this shape's
tokens to the `tokens` list in place; this version returns the extended
list. -/
def build_shape_tokens (s : Shape) (tokens : List ShapeToken) : List ShapeToken :=
  tokens ++ shapeTokens s

/-- Python `repr` of a geometry 4-tuple of ints. -/
def pyReprGeom (g : Int × Int × Int × Int) : String :=
  "(" ++ pystr.intToStr g.1 ++ ", " ++ pystr.intToStr g.2.1 ++ ", " ++
    pystr.intToStr g.2.2.1 ++ ", " ++ pystr.intToStr g.2.2.2 ++ ")"

/-- Python `repr` of one shape token tuple. -/
def pyReprToken : ShapeToken → String
  | .groupStart geom typeName =>
    "(" ++ csv_schema.pyReprStr "group_start" ++ ", " ++ pyReprGeom geom ++
      ", " ++ csv_schema.pyReprStr typeName ++ ")"
  | .groupEnd => "(" ++ csv_schema.pyReprStr "group_end" ++ ",)"
  | .shape kind role geom textHash imageHash typeName =>
    "(" ++ csv_schema.pyReprStr "shape" ++ ", " ++ csv_schema.pyReprStr kind ++
      ", " ++ csv_schema.pyReprStr role ++ ", " ++ pyReprGeom geom ++ ", " ++
      csv_schema.pyReprStr textHash ++ ", " ++ csv_schema.pyReprStr imageHash ++
      ", " ++ csv_schema.pyReprStr typeName ++ ")"

/-- Python `repr(tuple(tokens))`. -/
def pyReprTokens (tokens : List ShapeToken) : String :=
  csv_schema.pyReprTuple (tokens.map pyReprToken)

/-- `pptx_hash.compute_slide_hash_from_slide`: extract notes when not
supplied, walk the top-level shapes into a token list, and hash the
UTF-8 `repr` of that token tuple together with the notes text.  The call
to `csv_schema.compute_slide_hash` passes neither `rel_hashes` nor
`rel_tokens` (both default to `None` in the Python signature). -/
def compute_slide_hash_from_slide (slide : Slide) (notes_text : Option String) :
    String × String × List Nat :=
  let notes := notes_text.getD (pptx_text.extract_notes_text slide)
  let slide_xml := extract_slide_xml slide
  let tokens := slide.shapes.foldl (fun acc s => build_shape_tokens s acc) []
  let payload := hashlib.utf8 (pyReprTokens tokens)
  (csv_schema.compute_slide_hash payload notes none none, notes, slide_xml)

end pptx_hash

namespace text_boxes

open pptxmodel

/-- Lowercase ASCII letter or digit, the character class kept by the
`[^a-z0-9]+` substitution in `normalize_shape_name`. -/
def isLowerAlnum (c : Char) : Bool :=
  ('a' ≤ c && c ≤ 'z') || ('0' ≤ c && c ≤ '9')

/-- Replace each maximal run of non-`[a-z0-9]` characters by one `'_'`
(the `re.sub` in `normalize_shape_name`); `inRun` records whether the scan
is inside such a run. -/
def squashNonAlnum : List Char → Bool → List Char
  | [], _ => []
  | c :: rest, inRun =>
    if isLowerAlnum c then c :: squashNonAlnum rest false
    else if inRun then squashNonAlnum rest true
    else '_' :: squashNonAlnum rest true

/-- `str.strip("_")`: drop leading and trailing underscores. -/
def stripUnderscores (l : List Char) : List Char :=
  ((l.dropWhile (· = '_')).reverse.dropWhile (· = '_')).reverse

/-- `text_boxes.is_body_placeholder`: `BODY` plus the `getattr`-surviving
extras, which in python-pptx are exactly `OBJECT` (no `CONTENT`/`TEXT`
members exist). -/
def is_body_placeholder (pt : PpPlaceholderType) : Bool :=
  pt = .body || pt = .object

/-- `text_boxes.normalize_shape_name`: strip, lowercase, squash non-alnum
runs to `'_'`, trim underscores. -/
def normalize_shape_name (name : String) : String :=
  if name = "" then ""
  else
    let cleaned := (pystr.pyLower (pystr.pyStrip name)).data
    ⟨stripUnderscores (squashNonAlnum cleaned false)⟩

/-- `text_boxes.placeholder_type_name`: empty for a missing type and for a
member whose integer value is 0 (Python `if not placeholder_type` tests the
member's truthiness, and `CENTER_TITLE` has value 0), otherwise the
lowercased member name. -/
def placeholder_type_name (pt : Option PpPlaceholderType) : String :=
  match pt with
  | none => ""
  | some p =>
    if p.val = 0 then ""
    else if p.enumName = "" then ""
    else pystr.pyLower p.enumName

/-- `text_boxes.extract_text_block`: newline-joined paragraph lines, empty
for shapes without a text frame. -/
def extract_text_block (s : Shape) : String :=
  if !s.fields.hasTextFrame then ""
  else String.intercalate "\n" (pptx_text.extract_paragraph_lines s.fields.paragraphs)

/-- The numeric-suffix search of `ensure_unique_id`, fuel-driven so the
definition is structurally recursive.  With fuel `|used| + 1` the search
always succeeds before fuel runs out (the candidates tried are pairwise
distinct, so they cannot all be members of `used`), hence the zero-fuel
branch is never reached. -/
def firstFreeSuffix (box_id : String) (used : List String) :
    Nat → Nat → String
  | _, 0 => box_id
  | counter, fuel + 1 =>
    let candidate := box_id ++ "_" ++ pystr.natToStr counter
    if used.contains candidate then firstFreeSuffix box_id used (counter + 1) fuel
    else candidate

/-- `text_boxes.ensure_unique_id`: return the id unchanged when unused,
otherwise append `_2`, `_3`, … until free; the returned set (modelled as a
membership list) records the chosen id.  The Python function mutates the
`used` set in place; this version returns the updated set. -/
def ensure_unique_id (box_id : String) (used : List String) : String × List String :=
  if !used.contains box_id then (box_id, box_id :: used)
  else
    let candidate := firstFreeSuffix box_id used 2 (used.length + 1)
    (candidate, candidate :: used)

/-- One collected box: the Python dict's `"shape"` entry (an object
reference) is modelled as the shape's index in the slide's top-level shape
list. -/
structure BoxMeta where
  box_id : String
  shapeIdx : Nat
  shape_name : String
  placeholder_type : String
  deriving DecidableEq

/-- State of the primary placeholder pass: collected boxes, used ids and
the running body counter. -/
structure PrimarySt where
  boxes : List BoxMeta
  used : List String
  bodyCount : Nat
  deriving DecidableEq

/-- One iteration of the primary placeholder pass of
`collect_text_boxes`. -/
def primaryStep (include_subtitle include_footer : Bool)
    (st : PrimarySt) (idxShape : Nat × Shape) : PrimarySt :=
  let f := idxShape.2.fields
  if !f.hasTextFrame then st
  else if !f.isPlaceholder then st
  else
    let pt := f.placeholderType
    let idAndCount : String × Nat :=
      if pt = some .title || pt = some .centerTitle then ("title", st.bodyCount)
      else if pt = some .subtitle then
        (if include_subtitle then "subtitle" else "", st.bodyCount)
      else if (match pt with | some p => is_body_placeholder p | none => false) then
        ("body_" ++ pystr.natToStr (st.bodyCount + 1), st.bodyCount + 1)
      else if pt = some .footer then
        (if include_footer then "footer" else "", st.bodyCount)
      else ("", st.bodyCount)
    if idAndCount.1 = "" then { st with bodyCount := idAndCount.2 }
    else
      let unique := ensure_unique_id idAndCount.1 st.used
      { boxes := st.boxes ++
          [⟨unique.1, idxShape.1, f.name, placeholder_type_name pt⟩],
        used := unique.2,
        bodyCount := idAndCount.2 }

/-- State of the fallback pass: collected boxes, used ids (carried over
from the primary pass) and the running fallback index. -/
structure FallbackSt where
  boxes : List BoxMeta
  used : List String
  fallbackIndex : Nat
  deriving DecidableEq

/-- One iteration of the fallback pass of `collect_text_boxes`:
text-bearing non-placeholder shapes get the normalized shape name, or the
`box_<n>_<8-hex-guard>` scheme when that is empty, where the guard hashes
`str(shape_id or fallback_index)` (a `shape_id` of 0 is falsy). -/
def fallbackStep (st : FallbackSt) (idxShape : Nat × Shape) : FallbackSt :=
  let f := idxShape.2.fields
  if !f.hasTextFrame then st
  else if f.isPlaceholder then st
  else
    let shape_name := f.name
    let base := normalize_shape_name shape_name
    let idAndIdx : String × Nat :=
      if base = "" then
        let fi := st.fallbackIndex + 1
        let guard_source :=
          if f.shapeId ≠ 0 then pystr.natToStr f.shapeId else pystr.natToStr fi
        let guard_hash := (hashlib.sha256hexOfString guard_source).take 8
        ("box_" ++ pystr.natToStr fi ++ "_" ++ guard_hash, fi)
      else (base, st.fallbackIndex)
    let unique := ensure_unique_id idAndIdx.1 st.used
    { boxes := st.boxes ++ [⟨unique.1, idxShape.1, shape_name, ""⟩],
      used := unique.2,
      fallbackIndex := idAndIdx.2 }

/-- `text_boxes.collect_text_boxes`: the primary pass assigns ids to
placeholder shapes with text frames; when it yields no boxes and
`include_fallback` is set, the fallback pass runs over text-bearing
non-placeholder shapes and the flag `true` is returned. -/
def collect_text_boxes (slide : Slide)
    (include_subtitle include_footer include_fallback : Bool) :
    List BoxMeta × Bool :=
  let primary := slide.shapes.enum.foldl
    (primaryStep include_subtitle include_footer) ⟨[], [], 0⟩
  if !primary.boxes.isEmpty || !include_fallback then (primary.boxes, false)
  else
    let fallback := slide.shapes.enum.foldl fallbackStep ⟨[], primary.used, 0⟩
    (fallback.boxes, true)

end text_boxes

namespace apply_text_edits

open pptxmodel

/-- `MAX_BULLET_DEPTH` from `apply_text_edits.py`. -/
def MAX_BULLET_DEPTH : Nat := 4

/-- `apply_text_edits.parse_text_lines`: normalize newlines, split, and
turn each line into its `(leading tab count, tab-stripped text)` pair; an
empty line becomes `(0, "")`. -/
def parse_text_lines (text_value : String) : List (Nat × String) :=
  if text_value = "" then []
  else
    (pystr.splitLines (pystr.normalizeNewlines text_value.data)).map
      (fun raw =>
        if raw.isEmpty then (0, "")
        else ((raw.takeWhile (· = '\t')).length, ⟨pystr.lstripTabs raw⟩))

mutual
/-- One YAML bullets value: a null, a string, or a list of such values.
Scalar values of other YAML types are outside the modelled input range
(Python rejects them with `ValueError`). -/
inductive BulletVal where
  | null
  | s (v : String)
  | l (items : BulletList)
  deriving DecidableEq

/-- A YAML list of bullet values. -/
inductive BulletList where
  | bnil
  | bcons (hd : BulletVal) (tl : BulletList)
  deriving DecidableEq
end

mutual
/-- `apply_text_edits.render_bullets`: `None` yields no lines (checked
before the depth guard), depth ≥ 4 is a hard error, a string renders at
the current level, and a list renders its items in order. -/
def render_bullets : BulletVal → Nat → Except String (List String)
  | .null, _ => .ok []
  | .s v, level =>
    if MAX_BULLET_DEPTH ≤ level then
      .error "Bullet nesting depth exceeds the maximum."
    else .ok [(⟨List.replicate level '\t'⟩ : String) ++ v]
  | .l items, level =>
    if MAX_BULLET_DEPTH ≤ level then
      .error "Bullet nesting depth exceeds the maximum."
    else renderBulletItems items level

/-- The item loop of `render_bullets`: a string item renders at the
current level, a list item recurses one level deeper, and any other item
(modelled: a null) is a hard error. -/
def renderBulletItems : BulletList → Nat → Except String (List String)
  | .bnil, _ => .ok []
  | .bcons (.s v) rest, level => do
    let more ← renderBulletItems rest level
    .ok (((⟨List.replicate level '\t'⟩ : String) ++ v) :: more)
  | .bcons (.l sub) rest, level => do
    let nested ← render_bullets (.l sub) (level + 1)
    let more ← renderBulletItems rest level
    .ok (nested ++ more)
  | .bcons .null _, _ => .error "Bullets must contain strings or lists only."
end

/-- One box entry of a patch, as accessed by the apply loop: `locked` is
the truthiness of the `locked` key, `edit_status`, `box_id`, `text` and
`text_hash_before` are `str(...)` of the corresponding keys with `""` for
missing ones, and `bullets` is present exactly when the key exists with a
non-`None` value. -/
structure PatchBox where
  locked : Bool
  edit_status : String
  box_id : String
  bullets : Option BulletVal
  text : String
  text_hash_before : String
  deriving DecidableEq

/-- One patch entry: `source_slide_index` is `none` when the key is absent
or null, otherwise `str(value)`; `slide_hash` is `str(...)` with `""` for
a missing key; `boxes` is `none` when the `boxes` value is not a list
(a missing key defaults to the empty list), and each list item is `none`
when it is not a YAML mapping. -/
structure PatchEntry where
  source_slide_index : Option String
  slide_hash : String
  boxes : Option (List (Option PatchBox))
  deriving DecidableEq

/-- `apply_text_edits.resolve_box_text`: bullets win over `text` when
present and non-`None`. -/
def resolve_box_text (box : PatchBox) : Except String String :=
  match box.bullets with
  | some bv => (render_bullets bv 0).map (String.intercalate "\n")
  | none => .ok box.text

/-- `apply_text_edits.should_skip_box`: locked flag, or an `edit_status`
of `locked`/`skip`/`frozen` after strip+lower. -/
def should_skip_box (box : PatchBox) : Bool :=
  box.locked ||
    (let ed := pystr.pyLower (pystr.pyStrip box.edit_status)
     ed = "locked" || ed = "skip" || ed = "frozen")

/-- `apply_text_edits.set_shape_text`: shapes without a text frame are
left untouched; otherwise the text frame is cleared (leaving one empty
paragraph, which remains when the parsed line list is empty) and refilled
with one paragraph per parsed line. -/
def set_shape_text (s : Shape) (text_value : String) : Shape :=
  match s with
  | .mk f cs =>
    if !f.hasTextFrame then .mk f cs
    else
      let lines := parse_text_lines text_value
      .mk { f with paragraphs := if lines.isEmpty then [(0, "")] else lines } cs

/-- `apply_text_edits.set_notes_text`: the `if not notes_text and
notes_text != ""` guard is unreachable for `str` values; accessing
`slide.notes_slide` creates the notes slide in python-pptx, so the slide
ends up with notes present and the given text. -/
def set_notes_text (slide : Slide) (notes_text : String) : Slide :=
  { slide with hasNotesSlide := true, notesText := notes_text }

/-- The five counters reported by `apply_and_save`. -/
structure ApplyCounters where
  updated : Nat
  skipped : Nat
  missing : Nat
  mismatched : Nat
  slide_hash_mismatch : Nat
  deriving DecidableEq

/-- The zero counter state. -/
def zeroCounters : ApplyCounters := ⟨0, 0, 0, 0, 0⟩

/-- The shape-box tail of the box loop of `apply_and_save`, after the id
has resolved (or failed to resolve) in the box map: an unresolved id is a
missing target; otherwise the current text is read from the shape, the
text-hash precondition applies unless forcing, and the shape is rewritten
from the resolved text. -/
def applyBoxShape (force : Bool) (st : pptxmodel.Slide × ApplyCounters)
    (box : PatchBox) : Option text_boxes.BoxMeta →
    Except String (pptxmodel.Slide × ApplyCounters)
  | none => .ok (st.1, { st.2 with missing := st.2.missing + 1 })
  | some box_meta =>
    let slide := st.1
    let c := st.2
    let shape := slide.shapes.getD box_meta.shapeIdx pptxmodel.emptyShape
    let current_text := text_boxes.extract_text_block shape
    let expected_hash := box.text_hash_before
    let current_hash := csv_schema.compute_text_hash current_text
    if !force && expected_hash ≠ "" && expected_hash ≠ current_hash then
      .ok (slide, { c with mismatched := c.mismatched + 1 })
    else
      Except.bind (resolve_box_text box) fun new_text =>
        .ok ({ slide with shapes :=
                slide.shapes.set box_meta.shapeIdx (set_shape_text shape new_text) },
             { c with updated := c.updated + 1 })

/-- The body of the box loop of `apply_and_save` for one mapping box
entry: locked boxes are skipped, an empty id is a missing target, the
`notes` sentinel writes the notes (under the notes text-hash precondition
unless forcing), and any other id resolves through the box map. -/
def applyBoxData (force : Bool) (notes_text0 : String)
    (box_map : List (String × text_boxes.BoxMeta))
    (st : pptxmodel.Slide × ApplyCounters) (box : PatchBox) :
    Except String (pptxmodel.Slide × ApplyCounters) :=
  let slide := st.1
  let c := st.2
  if should_skip_box box then .ok (slide, { c with skipped := c.skipped + 1 })
  else if box.box_id = "" then .ok (slide, { c with missing := c.missing + 1 })
  else if box.box_id = "notes" then
    Except.bind (resolve_box_text box) fun new_text =>
      let current_notes_hash := csv_schema.compute_text_hash notes_text0
      let expected_notes_hash := box.text_hash_before
      if !force && expected_notes_hash ≠ "" &&
          expected_notes_hash ≠ current_notes_hash then
        .ok (slide, { c with mismatched := c.mismatched + 1 })
      else
        .ok (set_notes_text slide new_text, { c with updated := c.updated + 1 })
  else applyBoxShape force st box (box_map.lookup box.box_id)

/-- One iteration of the box loop of `apply_and_save`, operating on the
target slide and the counters.  `notes_text0` is the notes text captured
before the box loop (the Python code does not refresh it after a notes
write), and `box_map` is the id-to-box mapping captured before the loop;
the shape a box resolves to is read from the current slide state, which
models the in-place mutation of shape objects.  A non-mapping YAML entry
(`none`) is skipped silently. -/
def applyBox (force : Bool) (notes_text0 : String)
    (box_map : List (String × text_boxes.BoxMeta))
    (st : pptxmodel.Slide × ApplyCounters) :
    Option PatchBox → Except String (pptxmodel.Slide × ApplyCounters)
  | none => .ok st
  | some box => applyBoxData force notes_text0 box_map st box

/-- The boxes tail of the patch loop, after the slide-hash precondition
passed: a non-list `boxes` value is a missing target, otherwise the box
loop runs over the target slide and the result is written back at the
slide's position. -/
def applyPatchBoxes (force include_subtitle include_footer : Bool)
    (slides : List pptxmodel.Slide) (c : ApplyCounters)
    (slide : pptxmodel.Slide) (pos : Nat) (notes_text : String)
    (box_map : List (String × text_boxes.BoxMeta)) :
    Option (List (Option PatchBox)) →
    Except String (List pptxmodel.Slide × ApplyCounters)
  | none => .ok (slides, { c with missing := c.missing + 1 })
  | some boxes_data =>
    Except.bind (boxes_data.foldlM (applyBox force notes_text box_map) (slide, c))
      fun res => .ok (slides.set pos res.1, res.2)

/-- The body of the patch loop once a slide index string is present:
non-digit or out-of-range indices are missing targets; then the
slide-hash precondition applies (not gated on `force`), the boxes are
collected fresh, and the box loop runs. -/
def applyPatchIndexed (force include_subtitle include_footer : Bool)
    (slides : List pptxmodel.Slide) (c : ApplyCounters)
    (patch : PatchEntry) (slide_index_text : String) :
    Except String (List pptxmodel.Slide × ApplyCounters) :=
  if !pystr.pyIsDigit slide_index_text then
    .ok (slides, { c with missing := c.missing + 1 })
  else
    let slide_number := pystr.digitsToNat slide_index_text.data
    if slide_number < 1 || slides.length < slide_number then
      .ok (slides, { c with missing := c.missing + 1 })
    else
      let slide := slides.getD (slide_number - 1) pptxmodel.emptySlide
      let notes_text := pptx_text.extract_notes_text slide
      let current_hash :=
        (pptx_hash.compute_slide_hash_from_slide slide (some notes_text)).1
      let expected_hash := patch.slide_hash
      if expected_hash = "" || expected_hash ≠ current_hash then
        .ok (slides, { c with slide_hash_mismatch := c.slide_hash_mismatch + 1 })
      else
        let boxes :=
          (text_boxes.collect_text_boxes slide include_subtitle
            include_footer true).1
        let box_map := boxes.map (fun bm => (bm.box_id, bm))
        applyPatchBoxes force include_subtitle include_footer slides c slide
          (slide_number - 1) notes_text box_map patch.boxes

/-- The slide-index dispatch of the patch loop: a missing (or null) index
key is a missing target. -/
def applyPatchDispatch (force include_subtitle include_footer : Bool)
    (slides : List pptxmodel.Slide) (c : ApplyCounters) (patch : PatchEntry) :
    Option String → Except String (List pptxmodel.Slide × ApplyCounters)
  | none => .ok (slides, { c with missing := c.missing + 1 })
  | some slide_index_text =>
    applyPatchIndexed force include_subtitle include_footer slides c patch
      slide_index_text

/-- The patch-entry body: dispatch on the entry's `source_slide_index`
field. -/
def applyPatchData (force include_subtitle include_footer : Bool)
    (slides : List pptxmodel.Slide) (c : ApplyCounters) (patch : PatchEntry) :
    Except String (List pptxmodel.Slide × ApplyCounters) :=
  applyPatchDispatch force include_subtitle include_footer slides c patch
    patch.source_slide_index

/-- One iteration of the patch loop of `apply_and_save`: a non-mapping
YAML entry is skipped silently, otherwise the slide is resolved by
1-based ordinal and processed. -/
def applyPatchEntry (force include_subtitle include_footer : Bool)
    (st : List pptxmodel.Slide × ApplyCounters) :
    Option PatchEntry → Except String (List pptxmodel.Slide × ApplyCounters)
  | none => .ok st
  | some patch =>
    applyPatchData force include_subtitle include_footer st.1 st.2 patch

/-- `apply_text_edits.apply_and_save` without the I/O shell: fold the
patch loop over the presentation's slides starting from zero counters.
The returned state is the presentation as saved plus the five printed
counters; a `ValueError` from bullet rendering aborts the run before any
save, which the `Except.error` case models. -/
def apply_and_save (slides : List Slide) (patches : List (Option PatchEntry))
    (force include_subtitle include_footer : Bool) :
    Except String (List Slide × ApplyCounters) :=
  patches.foldlM (applyPatchEntry force include_subtitle include_footer)
    (slides, zeroCounters)

end apply_text_edits

namespace slide_csv

/-- The fixed column schema of `slide_csv.py` (the image-bearing row
store). -/
def CSV_COLUMNS : List String :=
  ["source_pptx", "source_slide_index", "slide_uid", "title_text",
   "body_text", "notes_text", "layout_hint", "image_refs", "image_hashes",
   "text_hash", "slide_fingerprint"]

/-- `LIST_DELIMITER` from `slide_csv.py`. -/
def LIST_DELIMITER : Char := '|'

/-- `slide_csv.normalize_text`: its body is a verbatim duplicate of
`csv_schema.normalize_text` in the sources. -/
def normalize_text (text : String) : String :=
  csv_schema.normalize_text text

/-- `slide_csv.split_list_field`: split on `|` and drop empty items; a
falsy value yields the empty list. -/
def split_list_field (value : String) : List String :=
  if value = "" then []
  else ((value.data.splitOn LIST_DELIMITER).map
    (fun cs => (⟨cs⟩ : String))).filter (· ≠ "")

/-- `slide_csv.join_list_field`. -/
def join_list_field (items : List String) : String :=
  if items.isEmpty then "" else String.intercalate "|" items

/-- `slide_csv.hash_text`: the full 64-character SHA-256 hex digest. -/
def hash_text (value : String) : String :=
  hashlib.sha256hexOfString value

/-- `slide_csv.compute_text_hash`: hash of the newline-joined normalized
title, body and notes. -/
def compute_text_hash (title_text body_text notes_text : String) : String :=
  hash_text (String.intercalate "\n"
    [normalize_text title_text, normalize_text body_text,
     normalize_text notes_text])

/-- `slide_csv.compute_slide_fingerprint`: hash of the text hash and the
joined image hashes. -/
def compute_slide_fingerprint (title_text body_text notes_text : String)
    (image_hashes : List String) : String :=
  let text_hash := compute_text_hash title_text body_text notes_text
  let joined_images := join_list_field image_hashes
  hash_text (text_hash ++ "\n" ++ joined_images)

/-- `slide_csv.compute_slide_uid`: hash of
`source:index:text_hash:joined_images`. -/
def compute_slide_uid (source_pptx : String) (slide_index : Nat)
    (title_text body_text notes_text : String)
    (image_hashes : List String) : String :=
  let text_hash := compute_text_hash title_text body_text notes_text
  let joined_images := join_list_field image_hashes
  hash_text (source_pptx ++ ":" ++ pystr.natToStr slide_index ++ ":" ++
    text_hash ++ ":" ++ joined_images)

/-- `slide_csv.validate_headers`: any header list other than the schema is
a hard error. -/
def validate_headers (headers : List String) : Except csv_schema.CsvError Unit :=
  if headers ≠ CSV_COLUMNS then
    .error (.headerMismatch CSV_COLUMNS headers)
  else .ok ()

/-- `slide_csv.read_slide_csv`, over the already-field-split records the
`csv.DictReader` boundary produces: the first record is the header
(`reader.fieldnames or []` is `[]` for an empty file), `validate_headers`
rejects any mismatch, and the remaining records become rows zipped against
the schema. -/
def read_slide_csv (records : List (List String)) :
    Except csv_schema.CsvError (List (List (String × String))) := do
  let headers := (records.head?).getD []
  let _ ← validate_headers headers
  .ok ((records.drop 1).map (fun r => CSV_COLUMNS.zip r))

/-- Drop `pre` from the front of `l` when it is literally there. -/
def dropPre : List Char → List Char → Option (List Char)
  | [], l => some l
  | _ :: _, [] => none
  | p :: ps, c :: cs => if p = c then dropPre ps cs else none

/-- Modelled from the spec: `slide_csv.build_image_locator` is absent from
the sources (only its parser's caller `rebuild_slides.select_images_by_locator`
and the CSV validator's tests reference the locator scheme); per §3 of the
spec the locator string is `pptx:<source>#slide=<n>#shape_id=<id>`. -/
def build_image_locator (source : String) (slide_index : Nat)
    (shape_id : String) : String :=
  "pptx:" ++ source ++ "#slide=" ++ pystr.natToStr slide_index ++
    "#shape_id=" ++ shape_id

/-- Modelled from the spec: `slide_csv.parse_image_locator` is absent from
the sources.  Per the spec the locator must be exactly parseable back into
its three components (`rebuild_slides.select_images_by_locator` treats a
falsy parse result as unparseable): the string must carry the `pptx:`
scheme and split at `#` into the source, a `slide=<digits>` field and a
`shape_id=<id>` field.  This helper handles the three split parts. -/
def parseLocatorParts : List (List Char) → Option (String × Nat × String)
  | [srcChars, slidePart, shapePart] =>
    (dropPre "slide=".data slidePart).bind fun digits =>
      (dropPre "shape_id=".data shapePart).bind fun sid =>
        if !digits.isEmpty && digits.all Char.isDigit then
          some (⟨srcChars⟩, pystr.digitsToNat digits, ⟨sid⟩)
        else none
  | _ => none

/-- Modelled from the spec: the scheme check plus the three-way split of
`parse_image_locator`. -/
def parse_image_locator (locator : String) : Option (String × Nat × String) :=
  (dropPre "pptx:".data locator.data).bind fun rest =>
    parseLocatorParts (rest.splitOn '#')

end slide_csv

section BasicLemmas

/-- Every character produced by the digit expansion is an ASCII digit. -/
theorem natToDigitCharsAux_isDigit :
    ∀ (fuel n : Nat) (c : Char), c ∈ pystr.natToDigitCharsAux fuel n →
      c.isDigit = true := by
  intro fuel
  induction fuel with
  | zero =>
    intro n c hc
    simp only [pystr.natToDigitCharsAux, List.mem_singleton] at hc
    subst hc
    have h10 : n % 10 < 10 := Nat.mod_lt _ (by omega)
    interval_cases h : (n % 10) <;> simp [Nat.digitChar]
  | succ fuel ih =>
    intro n c hc
    simp only [pystr.natToDigitCharsAux] at hc
    by_cases h : n < 10
    · simp only [if_pos h, List.mem_singleton] at hc
      subst hc
      interval_cases n <;> simp [Nat.digitChar]
    · simp only [if_neg h, List.mem_append, List.mem_singleton] at hc
      rcases hc with hc | hc
      · exact ih _ _ hc
      · subst hc
        have h10 : n % 10 < 10 := Nat.mod_lt _ (by omega)
        interval_cases h : (n % 10) <;> simp [Nat.digitChar]

/-- The digit expansion is never empty. -/
theorem natToDigitCharsAux_ne_nil (fuel n : Nat) :
    pystr.natToDigitCharsAux fuel n ≠ [] := by
  cases fuel with
  | zero => simp [pystr.natToDigitCharsAux]
  | succ fuel =>
    simp only [pystr.natToDigitCharsAux]
    by_cases h : n < 10 <;> simp [h]

/-- Reading one more digit multiplies the accumulated value by ten. -/
theorem digitsToNat_append_singleton (l : List Char) (c : Char) :
    pystr.digitsToNat (l ++ [c]) = 10 * pystr.digitsToNat l + pystr.digitVal c := by
  simp [pystr.digitsToNat, List.foldl_append]
  omega

/-- `digitVal` inverts `Nat.digitChar` on single digits. -/
theorem digitVal_digitChar (d : Nat) (h : d < 10) :
    pystr.digitVal (Nat.digitChar d) = d := by
  interval_cases d <;> simp [Nat.digitChar, pystr.digitVal]

/-- With sufficient fuel, reading back the digit expansion returns the
number. -/
theorem digitsToNat_natToDigitCharsAux :
    ∀ (fuel n : Nat), n ≤ fuel →
      pystr.digitsToNat (pystr.natToDigitCharsAux fuel n) = n := by
  intro fuel
  induction fuel with
  | zero =>
    intro n hn
    have h0 : n = 0 := by omega
    subst h0
    simp [pystr.natToDigitCharsAux, pystr.digitsToNat, pystr.digitVal, Nat.digitChar]
  | succ fuel ih =>
    intro n hn
    simp only [pystr.natToDigitCharsAux]
    by_cases h : n < 10
    · simp only [if_pos h]
      simp [pystr.digitsToNat, digitVal_digitChar n h]
    · simp only [if_neg h]
      rw [digitsToNat_append_singleton, ih (n / 10) (by omega),
        digitVal_digitChar _ (Nat.mod_lt _ (by omega))]
      omega

/-- `int(str(n)) = n` for natural numbers. -/
theorem digitsToNat_natToDigitChars (n : Nat) :
    pystr.digitsToNat (pystr.natToDigitChars n) = n :=
  digitsToNat_natToDigitCharsAux n n (Nat.le_refl n)

/-- `str(n)` consists of ASCII digits. -/
theorem natToDigitChars_all_isDigit (n : Nat) :
    (pystr.natToDigitChars n).all Char.isDigit = true := by
  rw [List.all_eq_true]
  intro c hc
  exact natToDigitCharsAux_isDigit n n c hc

/-- `str(n)` contains no `'#'`. -/
theorem hash_not_mem_natToDigitChars (n : Nat) :
    '#' ∉ pystr.natToDigitChars n := by
  intro h
  have := natToDigitCharsAux_isDigit n n '#' h
  simp [Char.isDigit] at this

/-- Dropping a literal prefix from that prefix plus a remainder succeeds
with the remainder. -/
theorem dropPre_append (p l : List Char) :
    slide_csv.dropPre p (p ++ l) = some l := by
  induction p with
  | nil => simp [slide_csv.dropPre]
  | cons c cs ih => simp [slide_csv.dropPre, ih]

end BasicLemmas

section LocatorRoundTrip

/-- The digit expansion is nonempty, stated for `isEmpty`. -/
theorem natToDigitChars_isEmpty_false (n : Nat) :
    (pystr.natToDigitChars n).isEmpty = false := by
  have h := natToDigitCharsAux_ne_nil n n
  unfold pystr.natToDigitChars
  cases hc : pystr.natToDigitCharsAux n n with
  | nil => exact absurd hc h
  | cons a l => rfl

/-- Split of `xs ++ '#' :: (ys ++ '#' :: zs)` on `'#'` when none of the
three segments contains `'#'`. -/
theorem splitOn_hash_three (xs ys zs : List Char)
    (hx : '#' ∉ xs) (hy : '#' ∉ ys) (hz : '#' ∉ zs) :
    (xs ++ '#' :: (ys ++ '#' :: zs)).splitOn '#' = [xs, ys, zs] := by
  have hx' : ∀ x ∈ xs, ¬((x == '#') = true) := by
    intro x hxm hbe
    exact hx (by rwa [eq_of_beq hbe] at hxm)
  have hy' : ∀ x ∈ ys, ¬((x == '#') = true) := by
    intro x hxm hbe
    exact hy (by rwa [eq_of_beq hbe] at hxm)
  have hz' : ∀ x ∈ zs, ¬((x == '#') = true) := by
    intro x hxm hbe
    exact hz (by rwa [eq_of_beq hbe] at hxm)
  have h1 := List.splitOnP_first (fun x => x == '#') xs hx' '#' (by simp)
    (ys ++ '#' :: zs)
  have h2 := List.splitOnP_first (fun x => x == '#') ys hy' '#' (by simp) zs
  have h3 := List.splitOnP_eq_single (fun x => x == '#') zs hz'
  show (xs ++ '#' :: (ys ++ '#' :: zs)).splitOnP (fun x => x == '#') = [xs, ys, zs]
  rw [h1, h2, h3]

/-- C4, spec-modelled locator round trip: for every source and shape id
containing no `'#'`, parsing the built locator recovers the three fields
verbatim. -/
theorem spec_c4 (source : String) (n : Nat) (shape_id : String)
    (hsrc : '#' ∉ source.data) (hsid : '#' ∉ shape_id.data) :
    slide_csv.parse_image_locator
        (slide_csv.build_image_locator source n shape_id) =
      some (source, n, shape_id) := by
  have hdata : (slide_csv.build_image_locator source n shape_id).data =
      "pptx:".data ++ (source.data ++ '#' ::
        (("slide=".data ++ pystr.natToDigitChars n) ++ '#' ::
          ("shape_id=".data ++ shape_id.data))) := by
    show ("pptx:" ++ source ++ "#slide=" ++ pystr.natToStr n ++
        "#shape_id=" ++ shape_id).data = _
    simp only [String.data_append]
    show "pptx:".data ++ source.data ++ "#slide=".data ++
        pystr.natToDigitChars n ++ "#shape_id=".data ++ shape_id.data = _
    have h1 : "#slide=".data = '#' :: "slide=".data := rfl
    have h2 : "#shape_id=".data = '#' :: "shape_id=".data := rfl
    rw [h1, h2]
    simp
  have hslide : '#' ∉ "slide=".data ++ pystr.natToDigitChars n := by
    intro hmem
    rcases List.mem_append.mp hmem with h | h
    · simp only [show "slide=".data = ['s', 'l', 'i', 'd', 'e', '='] from rfl] at h
      simp at h
    · exact hash_not_mem_natToDigitChars n h
  have hshape : '#' ∉ "shape_id=".data ++ shape_id.data := by
    intro hmem
    rcases List.mem_append.mp hmem with h | h
    · simp only [show "shape_id=".data =
        ['s', 'h', 'a', 'p', 'e', '_', 'i', 'd', '='] from rfl] at h
      simp at h
    · exact hsid h
  have hsplit := splitOn_hash_three source.data
    ("slide=".data ++ pystr.natToDigitChars n)
    ("shape_id=".data ++ shape_id.data) hsrc hslide hshape
  unfold slide_csv.parse_image_locator
  rw [hdata, dropPre_append, Option.some_bind, hsplit]
  simp only [slide_csv.parseLocatorParts]
  rw [dropPre_append, Option.some_bind, dropPre_append, Option.some_bind,
    if_pos (by
      rw [natToDigitChars_isEmpty_false, natToDigitChars_all_isDigit]
      rfl),
    digitsToNat_natToDigitChars]

end LocatorRoundTrip

section TextNormalization

/-- C8: blank lines and trailing spaces are insignificant to
normalization, a leading tab is preserved, and the text hash agrees on
each such pair of inputs. -/
theorem spec_c8 :
    csv_schema.normalize_text "Title\n\nBody  " = csv_schema.normalize_text "Title\nBody" ∧
    csv_schema.normalize_text "\tSub" = "\tSub" ∧
    csv_schema.compute_text_hash "Title\n\nBody  " =
      csv_schema.compute_text_hash "Title\nBody" ∧
    csv_schema.compute_text_hash "\tSub" = csv_schema.compute_text_hash "\tSub" := by
  have hnorm : csv_schema.normalize_text "Title\n\nBody  " =
      csv_schema.normalize_text "Title\nBody" := by decide
  refine ⟨hnorm, by decide, ?_, rfl⟩
  unfold csv_schema.compute_text_hash
  rw [hnorm]

end TextNormalization

section ApplyClaims

open apply_text_edits pptxmodel

/-- For an in-range entry whose stored hash is empty or differs from the
recomputed slide signature, the indexed patch body counts one slide-hash
mismatch and leaves every slide unchanged, for any force flag. -/
theorem applyPatchIndexed_mismatch (force include_subtitle include_footer : Bool)
    (slides : List Slide) (c : ApplyCounters) (patch : PatchEntry) (t : String)
    (hdig : pystr.pyIsDigit t = true)
    (hlo : 1 ≤ pystr.digitsToNat t.data)
    (hhi : pystr.digitsToNat t.data ≤ slides.length)
    (hmis : patch.slide_hash = "" ∨
      patch.slide_hash ≠
        (pptx_hash.compute_slide_hash_from_slide
          (slides.getD (pystr.digitsToNat t.data - 1) emptySlide)
          (some (pptx_text.extract_notes_text
            (slides.getD (pystr.digitsToNat t.data - 1) emptySlide)))).1) :
    applyPatchIndexed force include_subtitle include_footer slides c patch t =
      .ok (slides, { c with slide_hash_mismatch := c.slide_hash_mismatch + 1 }) := by
  unfold applyPatchIndexed
  rw [if_neg (by simp [hdig])]
  simp only
  rw [if_neg (by
    simp only [Bool.or_eq_true, decide_eq_true_eq, not_or, not_lt]
    omega)]
  rw [if_pos (by
    rcases hmis with h | h
    · simp [h]
    · rw [List.getD_eq_getElem?_getD] at h
      simp [h])]

/-- C1, amended: the slide-level hash comparison blocks application of an
in-range entry's boxes whenever the recomputed slide signature differs
from the entry's `slide_hash` (or that field is empty), for `force = true`
exactly as for `force = false`; the counters record one slide-hash
mismatch and no slide is mutated.  The force flag bypasses only the
per-box text-hash comparisons. -/
theorem spec_c1 (force include_subtitle include_footer : Bool)
    (slides : List pptxmodel.Slide) (c : ApplyCounters) (patch : PatchEntry)
    (t : String)
    (hidx : patch.source_slide_index = some t)
    (hdig : pystr.pyIsDigit t = true)
    (hlo : 1 ≤ pystr.digitsToNat t.data)
    (hhi : pystr.digitsToNat t.data ≤ slides.length)
    (hmis : patch.slide_hash = "" ∨
      patch.slide_hash ≠
        (pptx_hash.compute_slide_hash_from_slide
          (slides.getD (pystr.digitsToNat t.data - 1) pptxmodel.emptySlide)
          (some (pptx_text.extract_notes_text
            (slides.getD (pystr.digitsToNat t.data - 1) pptxmodel.emptySlide)))).1) :
    applyPatchEntry force include_subtitle include_footer (slides, c) (some patch) =
      .ok (slides, { c with slide_hash_mismatch := c.slide_hash_mismatch + 1 }) := by
  obtain ⟨psi, ph, pb⟩ := patch
  have hidx' : psi = some t := hidx
  subst hidx'
  simp only [applyPatchEntry, applyPatchData, applyPatchDispatch]
  exact applyPatchIndexed_mismatch force include_subtitle include_footer slides c
    ⟨some t, ph, pb⟩ t hdig hlo hhi hmis

/-- C2: a patch entry whose recomputed slide signature differs from its
`slide_hash` is, under `force = false`, counted as exactly one slide-hash
mismatch with zero box mutations: the slide list (hence every shape text
and notes text) is returned unchanged and the other four counters are
untouched. -/
theorem spec_c2 (include_subtitle include_footer : Bool)
    (slides : List pptxmodel.Slide) (c : ApplyCounters) (patch : PatchEntry)
    (t : String)
    (hidx : patch.source_slide_index = some t)
    (hdig : pystr.pyIsDigit t = true)
    (hlo : 1 ≤ pystr.digitsToNat t.data)
    (hhi : pystr.digitsToNat t.data ≤ slides.length)
    (hmis : patch.slide_hash ≠
      (pptx_hash.compute_slide_hash_from_slide
        (slides.getD (pystr.digitsToNat t.data - 1) pptxmodel.emptySlide)
        (some (pptx_text.extract_notes_text
          (slides.getD (pystr.digitsToNat t.data - 1) pptxmodel.emptySlide)))).1) :
    applyPatchEntry false include_subtitle include_footer (slides, c) (some patch) =
      .ok (slides, { c with slide_hash_mismatch := c.slide_hash_mismatch + 1 }) := by
  obtain ⟨psi, ph, pb⟩ := patch
  have hidx' : psi = some t := hidx
  subst hidx'
  simp only [applyPatchEntry, applyPatchData, applyPatchDispatch]
  exact applyPatchIndexed_mismatch false include_subtitle include_footer slides c
    ⟨some t, ph, pb⟩ t hdig hlo hhi (Or.inr hmis)

/-- C9: the two precondition levels treat empty hash fields
asymmetrically.  (1) A notes entry with an empty `text_hash_before` is
written with no text-hash comparison even under `force = false`; (2) a
shape entry with an empty `text_hash_before` is likewise written
unconditionally; (3) an entry with an empty `slide_hash` is counted as a
slide-hash mismatch and its boxes are skipped entirely, even under
`force = true` (the third conjunct holds for every force flag). -/
theorem spec_c9 :
    (∀ (notes0 : String) (box_map : List (String × text_boxes.BoxMeta))
        (slide : pptxmodel.Slide) (c : ApplyCounters) (box : PatchBox)
        (t : String),
      should_skip_box box = false →
      box.box_id = "notes" →
      box.text_hash_before = "" →
      resolve_box_text box = .ok t →
      applyBox false notes0 box_map (slide, c) (some box) =
        .ok (set_notes_text slide t, { c with updated := c.updated + 1 })) ∧
    (∀ (notes0 : String) (box_map : List (String × text_boxes.BoxMeta))
        (slide : pptxmodel.Slide) (c : ApplyCounters) (box : PatchBox)
        (meta : text_boxes.BoxMeta) (t : String),
      should_skip_box box = false →
      box.box_id ≠ "" →
      box.box_id ≠ "notes" →
      box_map.lookup box.box_id = some meta →
      box.text_hash_before = "" →
      resolve_box_text box = .ok t →
      applyBox false notes0 box_map (slide, c) (some box) =
        .ok ({ slide with
                shapes := slide.shapes.set meta.shapeIdx
                  (set_shape_text
                    (slide.shapes.getD meta.shapeIdx pptxmodel.emptyShape) t) },
             { c with updated := c.updated + 1 })) ∧
    (∀ (force include_subtitle include_footer : Bool)
        (slides : List pptxmodel.Slide) (c : ApplyCounters)
        (patch : PatchEntry) (t : String),
      patch.source_slide_index = some t →
      pystr.pyIsDigit t = true →
      1 ≤ pystr.digitsToNat t.data →
      pystr.digitsToNat t.data ≤ slides.length →
      patch.slide_hash = "" →
      applyPatchEntry force include_subtitle include_footer (slides, c) (some patch) =
        .ok (slides, { c with slide_hash_mismatch := c.slide_hash_mismatch + 1 })) := by
  refine ⟨?notes, ?shape, ?slide⟩
  case notes =>
    intro notes0 box_map slide c box t hskip hid hhash hres
    simp only [applyBox, applyBoxData]
    rw [if_neg (by simp [hskip]), if_neg (by simp [hid]), if_pos hid, hres]
    simp only [Except.bind]
    rw [if_neg (by simp [hhash])]
  case shape =>
    intro notes0 box_map slide c box meta t hskip hid1 hid2 hlook hhash hres
    simp only [applyBox, applyBoxData]
    rw [if_neg (by simp [hskip]), if_neg hid1, if_neg hid2, hlook]
    simp only [applyBoxShape]
    rw [if_neg (by simp [hhash]), hres]
    simp only [Except.bind]
  case slide =>
    intro force include_subtitle include_footer slides c patch t hidx hdig hlo hhi hempty
    obtain ⟨psi, ph, pb⟩ := patch
    have hidx' : psi = some t := hidx
    subst hidx'
    simp only [applyPatchEntry, applyPatchData, applyPatchDispatch]
    exact applyPatchIndexed_mismatch force include_subtitle include_footer slides c
      ⟨some t, ph, pb⟩ t hdig hlo hhi (Or.inl hempty)

/-- C10: a non-locked box entry that resolves through the box map on a
slide whose preconditions pass is rewritten and counted as updated even
when the resolved text is character-for-character identical to the box's
current text — there is no no-op detection. -/
theorem spec_c10 (force : Bool) (notes0 : String)
    (box_map : List (String × text_boxes.BoxMeta))
    (slide : pptxmodel.Slide) (c : ApplyCounters) (box : PatchBox)
    (meta : text_boxes.BoxMeta) (t : String)
    (hskip : should_skip_box box = false)
    (hid1 : box.box_id ≠ "")
    (hid2 : box.box_id ≠ "notes")
    (hlook : box_map.lookup box.box_id = some meta)
    (hres : resolve_box_text box = .ok t)
    (hpre : force = true ∨ box.text_hash_before = "" ∨
      box.text_hash_before = csv_schema.compute_text_hash
        (text_boxes.extract_text_block
          (slide.shapes.getD meta.shapeIdx pptxmodel.emptyShape)))
    (hnoop : t = text_boxes.extract_text_block
      (slide.shapes.getD meta.shapeIdx pptxmodel.emptyShape)) :
    applyBox force notes0 box_map (slide, c) (some box) =
      .ok ({ slide with
              shapes := slide.shapes.set meta.shapeIdx
                (set_shape_text
                  (slide.shapes.getD meta.shapeIdx pptxmodel.emptyShape) t) },
           { c with updated := c.updated + 1 }) := by
  simp only [applyBox, applyBoxData]
  rw [if_neg (by simp [hskip]), if_neg hid1, if_neg hid2, hlook]
  simp only [applyBoxShape]
  rw [if_neg (by
    rcases hpre with h | h | h <;> simp [h]), hres]
  simp only [Except.bind]

end ApplyClaims

section CsvHeaderClaims

/-- Any 9-field row is accepted (or skipped) by the `csv_schema` row step,
never rejected. -/
theorem readRowStep_ok (acc : List (List (String × String)))
    (row : List String) (h : row.length = csv_schema.CSV_COLUMNS.length) :
    ∃ out, csv_schema.readRowStep acc row = .ok out := by
  unfold csv_schema.readRowStep
  by_cases h1 : row.isEmpty
  · exact ⟨acc, by rw [if_pos h1]⟩
  · rw [if_neg h1]
    simp only
    by_cases h2 : (row.map pystr.pyStrip).all (· = "")
    · exact ⟨acc, by rw [if_pos h2]⟩
    · rw [if_neg h2]
      by_cases h3 : row.map pystr.pyStrip = csv_schema.CSV_COLUMNS
      · exact ⟨acc, by rw [if_pos h3]⟩
      · rw [if_neg h3, if_neg (by omega)]
        exact ⟨_, rfl⟩

/-- The `csv_schema` read loop succeeds on every list of 9-field rows. -/
theorem csvSchemaRead_ok_aux :
    ∀ (rows : List (List String)) (acc : List (List (String × String))),
      (∀ r ∈ rows, r.length = csv_schema.CSV_COLUMNS.length) →
      ∃ out, rows.foldlM csv_schema.readRowStep acc = Except.ok out := by
  intro rows
  induction rows with
  | nil => exact fun acc _ => ⟨acc, rfl⟩
  | cons r rest ih =>
    intro acc hall
    obtain ⟨acc', hstep⟩ := readRowStep_ok acc r (hall r (by simp))
    obtain ⟨out, hrest⟩ := ih acc' (fun x hx => hall x (by simp [hx]))
    refine ⟨out, ?_⟩
    rw [List.foldlM_cons, hstep]
    simpa using hrest

/-- C5, amended: the `slide_csv` reader treats any header mismatch as a
hard parse error, but the `csv_schema` reader performs no header
validation at all — it never fails on a file whose rows all have the
schema's width, whatever its header row is. -/
theorem spec_c5 :
    (∀ records : List (List String),
      records.head?.getD [] ≠ slide_csv.CSV_COLUMNS →
      slide_csv.read_slide_csv records =
        .error (.headerMismatch slide_csv.CSV_COLUMNS (records.head?.getD []))) ∧
    (∀ rows : List (List String),
      (∀ r ∈ rows, r.length = csv_schema.CSV_COLUMNS.length) →
      ∃ out, csv_schema.read_slide_csv rows = .ok out) := by
  constructor
  · intro records h
    unfold slide_csv.read_slide_csv slide_csv.validate_headers
    simp only []
    rw [if_pos h]
    rfl
  · intro rows h
    exact csvSchemaRead_ok_aux rows [] h

/-- C5, counterexample: a file whose header row is the nine schema columns
in the wrong order (first two swapped) is not rejected by
`csv_schema.read_slide_csv`; the reordered header comes back as a data
row, zipped against the fixed column order. -/
theorem spec_c5_counterexample :
    csv_schema.read_slide_csv
        [["source_slide_index", "source_pptx", "slide_hash", "master_name",
          "layout_type", "asset_types", "title_text", "body_text", "notes_text"]] =
      .ok [csv_schema.CSV_COLUMNS.zip
        ["source_slide_index", "source_pptx", "slide_hash", "master_name",
         "layout_type", "asset_types", "title_text", "body_text", "notes_text"]] ∧
    ["source_slide_index", "source_pptx", "slide_hash", "master_name",
     "layout_type", "asset_types", "title_text", "body_text", "notes_text"] ≠
      csv_schema.CSV_COLUMNS := by
  constructor
  · rfl
  · decide

/-- C5, witness: the amended claim applied at a one-row file with a bad
header (for the `slide_csv` reader) and at a single 9-field record (for
the `csv_schema` reader). -/
theorem spec_c5_witness :
    slide_csv.read_slide_csv [["x"]] =
      .error (.headerMismatch slide_csv.CSV_COLUMNS ([["x"]].head?.getD [])) ∧
    ∃ out, csv_schema.read_slide_csv
      [["a", "b", "c", "d", "e", "f", "g", "h", "i"]] = .ok out :=
  ⟨spec_c5.1 [["x"]] (by decide),
   spec_c5.2 [["a", "b", "c", "d", "e", "f", "g", "h", "i"]] (by decide)⟩

end CsvHeaderClaims

section RelClaims

open pptxmodel

/-- A text-box shape used by the relationship fixture. -/
def relFixtureShape : Shape :=
  .mk ⟨some .textBox, false, none, "TextBox 1", 4, true, [(0, "Same text")],
       false, [], false, false, [], 0, 0, 100, 50, none⟩ .nil

/-- An internal image relationship whose referenced part holds the bytes
`[1, 2, 3]`. -/
def relImageA : Rel :=
  ⟨"rId2",
   "http://schemas.openxmlformats.org/officeDocument/2006/relationships/image",
   false, [1, 2, 3], ""⟩

/-- The same relationship after the referenced part's bytes changed. -/
def relImageB : Rel :=
  ⟨"rId2",
   "http://schemas.openxmlformats.org/officeDocument/2006/relationships/image",
   false, [9, 9, 9], ""⟩

/-- A one-shape slide carrying the given relationship set. -/
def relFixtureSlide (rels : List Rel) : Slide :=
  ⟨[relFixtureShape], [60, 115], false, "", rels⟩

/-- C3, evaluated at the failing input: the slide signature computed by
`compute_slide_hash_from_slide` is a function of the shape tokens and the
notes text only — the relationship set is never read (the call to
`csv_schema.compute_slide_hash` passes `rel_hashes = None` and
`rel_tokens = None`), so two slides that differ only in the bytes of a
referenced part receive equal signatures, contradicting the claimed
incorporation of the sorted relationship token list. -/
theorem spec_c3 :
    (∀ (shapes : List Shape) (xml : List Nat) (hn : Bool) (nt : String)
        (r1 r2 : List Rel),
      (pptx_hash.compute_slide_hash_from_slide ⟨shapes, xml, hn, nt, r1⟩ none).1 =
        (pptx_hash.compute_slide_hash_from_slide ⟨shapes, xml, hn, nt, r2⟩ none).1) ∧
    (pptx_hash.compute_slide_hash_from_slide (relFixtureSlide [relImageA]) none).1 =
      (pptx_hash.compute_slide_hash_from_slide (relFixtureSlide [relImageB]) none).1 ∧
    (relFixtureSlide [relImageA]).rels ≠ (relFixtureSlide [relImageB]).rels ∧
    (relFixtureSlide [relImageA]).shapes = (relFixtureSlide [relImageB]).shapes ∧
    (relFixtureSlide [relImageA]).notesText = (relFixtureSlide [relImageB]).notesText ∧
    (relFixtureSlide [relImageA]).xmlBlob = (relFixtureSlide [relImageB]).xmlBlob := by
  refine ⟨fun shapes xml hn nt r1 r2 => rfl, rfl, ?_, rfl, rfl, rfl⟩
  decide

end RelClaims

section FingerprintClaims

/-- C7, amended: rows sharing identical title, body, notes and image-hash
lists always have equal fingerprints; equal UIDs additionally require
equal `source_pptx` and slide index, since the UID key includes both.
Changing one image hash changes that row's fingerprint and UID (shown at
a concrete row), while the other row's values, being pure functions of
its own fields, are unchanged. -/
theorem spec_c7 (t1 b1 n1 t2 b2 n2 : String) (h1s h2s : List String)
    (src1 src2 : String) (i1 i2 : Nat)
    (ht : t1 = t2) (hb : b1 = b2) (hn : n1 = n2) (hi : h1s = h2s) :
    slide_csv.compute_slide_fingerprint t1 b1 n1 h1s =
      slide_csv.compute_slide_fingerprint t2 b2 n2 h2s ∧
    (src1 = src2 → i1 = i2 →
      slide_csv.compute_slide_uid src1 i1 t1 b1 n1 h1s =
        slide_csv.compute_slide_uid src2 i2 t2 b2 n2 h2s) ∧
    slide_csv.compute_slide_fingerprint "T" "B" "" ["h1", "h2"] ≠
      slide_csv.compute_slide_fingerprint "T" "B" "" ["h1", "h3"] ∧
    slide_csv.compute_slide_uid "deck.pptx" 1 "T" "B" "" ["h1", "h2"] ≠
      slide_csv.compute_slide_uid "deck.pptx" 1 "T" "B" "" ["h1", "h3"] := by
  subst ht hb hn hi
  refine ⟨rfl, ?_, by decide, by decide⟩
  intro hs hidx
  subst hs hidx
  rfl

/-- C7, counterexample: two rows with identical title, body, notes and
image hashes but different source decks have equal fingerprints yet
different UIDs, refuting the claim that equal text and images alone give
equal UIDs. -/
theorem spec_c7_counterexample :
    slide_csv.compute_slide_fingerprint "T" "B" "" ["h1"] =
      slide_csv.compute_slide_fingerprint "T" "B" "" ["h1"] ∧
    slide_csv.compute_slide_uid "a.pptx" 1 "T" "B" "" ["h1"] ≠
      slide_csv.compute_slide_uid "b.pptx" 1 "T" "B" "" ["h1"] := by
  exact ⟨rfl, by decide⟩

/-- C7, witness: the amended claim applied at two concrete rows sharing
text, images, source and index. -/
theorem spec_c7_witness :
    slide_csv.compute_slide_fingerprint "T" "B" "" ["h"] =
      slide_csv.compute_slide_fingerprint "T" "B" "" ["h"] ∧
    ("d.pptx" = "d.pptx" → 2 = 2 →
      slide_csv.compute_slide_uid "d.pptx" 2 "T" "B" "" ["h"] =
        slide_csv.compute_slide_uid "d.pptx" 2 "T" "B" "" ["h"]) ∧
    slide_csv.compute_slide_fingerprint "T" "B" "" ["h1", "h2"] ≠
      slide_csv.compute_slide_fingerprint "T" "B" "" ["h1", "h3"] ∧
    slide_csv.compute_slide_uid "deck.pptx" 1 "T" "B" "" ["h1", "h2"] ≠
      slide_csv.compute_slide_uid "deck.pptx" 1 "T" "B" "" ["h1", "h3"] :=
  spec_c7 "T" "B" "" "T" "B" "" ["h"] ["h"] "d.pptx" "d.pptx" 2 2 rfl rfl rfl rfl

end FingerprintClaims

/-- Decidable equality for `Except` results, used to evaluate the apply
pipeline at concrete inputs. -/
instance exceptDecEq {ε α : Type} [DecidableEq ε] [DecidableEq α] :
    DecidableEq (Except ε α) := fun x y =>
  match x, y with
  | .ok a, .ok b =>
    if h : a = b then .isTrue (by rw [h]) else .isFalse (by simp [h])
  | .error a, .error b =>
    if h : a = b then .isTrue (by rw [h]) else .isFalse (by simp [h])
  | .ok _, .error _ => .isFalse (by simp)
  | .error _, .ok _ => .isFalse (by simp)

section ApplyFixtures

open pptxmodel apply_text_edits

/-- Fixture: a title placeholder holding "Hi". -/
def applyFixtureTitle : Shape :=
  .mk ⟨some .placeholder, true, some .title, "Title 1", 2, true, [(0, "Hi")],
       false, [], false, false, [], 0, 0, 10, 10, none⟩ .nil

/-- Fixture: a body placeholder holding the lines "A" and "B". -/
def applyFixtureBody : Shape :=
  .mk ⟨some .placeholder, true, some .body, "Content 2", 3, true,
       [(0, "A"), (0, "B")], false, [], false, false, [], 0, 20, 10, 10, none⟩ .nil

/-- Fixture: a one-title-one-body slide without notes. -/
def applyFixtureSlide : Slide :=
  ⟨[applyFixtureTitle, applyFixtureBody], [60, 115], false, "", []⟩

/-- Fixture: the slide after its body was rewritten to "A" and "C". -/
def applyFixtureEdited : Slide :=
  ⟨[applyFixtureTitle,
    .mk ⟨some .placeholder, true, some .body, "Content 2", 3, true,
         [(0, "A"), (0, "C")], false, [], false, false, [], 0, 20, 10, 10, none⟩ .nil],
   [60, 115], false, "", []⟩

/-- Fixture: a box entry rewriting `body_1` to "A" and "C" with no
recorded text hash. -/
def applyFixtureBox : PatchBox :=
  ⟨false, "", "body_1", none, "A\nC", ""⟩

/-- Fixture: a patch entry for slide 1 whose stored slide hash is a
16-hex string that does not match the slide's recomputed signature. -/
def applyPatchWrongHash : PatchEntry :=
  ⟨some "1", "0123456789abcdef", some [some applyFixtureBox]⟩

/-- Fixture: the same patch entry with the matching recomputed hash. -/
def applyPatchRightHash : PatchEntry :=
  ⟨some "1", (pptx_hash.compute_slide_hash_from_slide applyFixtureSlide none).1,
   some [some applyFixtureBox]⟩

/-- C1, counterexample: with `force = true` and an in-range entry whose
`slide_hash` differs from the recomputed signature, no per-box update
proceeds — the run reports one slide-hash mismatch and leaves the deck
unchanged — while the identical entry with the matching hash does apply
its box under the same flags.  This refutes the claim that forcing
bypasses the slide-level comparison. -/
theorem spec_c1_counterexample :
    apply_and_save [applyFixtureSlide] [some applyPatchWrongHash] true false false =
      .ok ([applyFixtureSlide], ⟨0, 0, 0, 0, 1⟩) ∧
    applyPatchWrongHash.slide_hash ≠
      (pptx_hash.compute_slide_hash_from_slide applyFixtureSlide none).1 ∧
    applyPatchWrongHash.source_slide_index = some "1" ∧
    apply_and_save [applyFixtureSlide] [some applyPatchRightHash] true false false =
      .ok ([applyFixtureEdited], ⟨1, 0, 0, 0, 0⟩) := by
  refine ⟨by decide, by decide, rfl, by decide⟩

/-- C1, witness: the amended claim applied to the wrong-hash fixture
under `force = true`. -/
theorem spec_c1_witness :
    applyPatchEntry true false false ([applyFixtureSlide], zeroCounters)
        (some applyPatchWrongHash) =
      .ok ([applyFixtureSlide], ⟨0, 0, 0, 0, 1⟩) :=
  spec_c1 true false false [applyFixtureSlide] zeroCounters applyPatchWrongHash
    "1" rfl (by decide) (by decide) (by decide) (Or.inr (by decide))

/-- C2, witness: the same wrong-hash fixture under `force = false`. -/
theorem spec_c2_witness :
    applyPatchEntry false false false ([applyFixtureSlide], zeroCounters)
        (some applyPatchWrongHash) =
      .ok ([applyFixtureSlide], ⟨0, 0, 0, 0, 1⟩) :=
  spec_c2 false false [applyFixtureSlide] zeroCounters applyPatchWrongHash
    "1" rfl (by decide) (by decide) (by decide) (by decide)

/-- Fixture: the box-map entry the apply fixture's body placeholder
collects to. -/
def applyFixtureBodyMeta : text_boxes.BoxMeta :=
  ⟨"body_1", 1, "Content 2", "body"⟩

/-- C9, witness: the three conjuncts of the asymmetry claim applied at
concrete inputs — a notes box and a shape box with empty
`text_hash_before` under `force = false`, and an entry with an empty
`slide_hash` under `force = true`. -/
theorem spec_c9_witness :
    applyBox false "" [("body_1", applyFixtureBodyMeta)]
        (applyFixtureSlide, zeroCounters)
        (some ⟨false, "", "notes", none, "N", ""⟩) =
      .ok (set_notes_text applyFixtureSlide "N", ⟨1, 0, 0, 0, 0⟩) ∧
    applyBox false "" [("body_1", applyFixtureBodyMeta)]
        (applyFixtureSlide, zeroCounters)
        (some ⟨false, "", "body_1", none, "X", ""⟩) =
      .ok ({ applyFixtureSlide with
              shapes := applyFixtureSlide.shapes.set 1
                (set_shape_text
                  (applyFixtureSlide.shapes.getD 1 emptyShape) "X") },
           ⟨1, 0, 0, 0, 0⟩) ∧
    applyPatchEntry true false false ([applyFixtureSlide], zeroCounters)
        (some ⟨some "1", "", some []⟩) =
      .ok ([applyFixtureSlide], ⟨0, 0, 0, 0, 1⟩) :=
  ⟨spec_c9.1 "" [("body_1", applyFixtureBodyMeta)] applyFixtureSlide
     zeroCounters ⟨false, "", "notes", none, "N", ""⟩ "N" rfl rfl rfl rfl,
   spec_c9.2.1 "" [("body_1", applyFixtureBodyMeta)] applyFixtureSlide
     zeroCounters ⟨false, "", "body_1", none, "X", ""⟩ applyFixtureBodyMeta
     "X" rfl (by decide) (by decide) rfl rfl rfl,
   spec_c9.2.2 true false false [applyFixtureSlide] zeroCounters
     ⟨some "1", "", some []⟩ "1" rfl (by decide) (by decide) (by decide) rfl⟩

/-- C10, witness: a box entry whose resolved text equals the body's
current text "A\nB" is still rewritten and counted as updated. -/
theorem spec_c10_witness :
    applyBox false "" [("body_1", applyFixtureBodyMeta)]
        (applyFixtureSlide, zeroCounters)
        (some ⟨false, "", "body_1", none, "A\nB", ""⟩) =
      .ok ({ applyFixtureSlide with
              shapes := applyFixtureSlide.shapes.set 1
                (set_shape_text
                  (applyFixtureSlide.shapes.getD 1 emptyShape) "A\nB") },
           ⟨1, 0, 0, 0, 0⟩) :=
  spec_c10 false "" [("body_1", applyFixtureBodyMeta)] applyFixtureSlide
    zeroCounters ⟨false, "", "body_1", none, "A\nB", ""⟩ applyFixtureBodyMeta
    "A\nB" rfl (by decide) (by decide) rfl rfl (Or.inr (Or.inl rfl)) (by decide)

/-- C4, witness: the locator round trip at a concrete source, index and
shape id. -/
theorem spec_c4_witness :
    slide_csv.parse_image_locator
        (slide_csv.build_image_locator "deck.pptx" 3 "17") =
      some ("deck.pptx", 3, "17") :=
  spec_c4 "deck.pptx" 3 "17" (by decide) (by decide)

end ApplyFixtures

namespace textboxes_spec

open pptxmodel

/-- The claim's id-assignment rule for one placeholder type, following the
spec wording: the title or center-title placeholder is `"title"`, the
subtitle is `"subtitle"` only when requested, each body-like placeholder
is `"body_<k>"` for the running body count, the footer is `"footer"` only
when requested; everything else yields no box.  Returns the (optional) raw
id and the updated body count. -/
def roleId (include_subtitle include_footer : Bool)
    (pt : Option PpPlaceholderType) (bodyCount : Nat) : Option String × Nat :=
  match pt with
  | some .title => (some "title", bodyCount)
  | some .centerTitle => (some "title", bodyCount)
  | some .subtitle =>
    (if include_subtitle then some "subtitle" else none, bodyCount)
  | some .body =>
    (some ("body_" ++ pystr.natToStr (bodyCount + 1)), bodyCount + 1)
  | some .object =>
    (some ("body_" ++ pystr.natToStr (bodyCount + 1)), bodyCount + 1)
  | some .footer =>
    (if include_footer then some "footer" else none, bodyCount)
  | _ => (none, bodyCount)

/-- Phase one of the claim's primary pass: walk the enumerated shapes and
record, for each text-bearing placeholder that the rule names, its index,
fields and raw (pre-uniquification) id. -/
def rawPrimary (include_subtitle include_footer : Bool) :
    List (Nat × Shape) → Nat → List (Nat × ShapeFields × String)
  | [], _ => []
  | (i, s) :: rest, bc =>
    let f := s.fields
    if f.hasTextFrame && f.isPlaceholder then
      match roleId include_subtitle include_footer f.placeholderType bc with
      | (some rid, bc') => (i, f, rid) :: rawPrimary include_subtitle include_footer rest bc'
      | (none, bc') => rawPrimary include_subtitle include_footer rest bc'
    else rawPrimary include_subtitle include_footer rest bc

/-- The running body count after the primary pass. -/
def bodyAfter (include_subtitle include_footer : Bool) :
    List (Nat × Shape) → Nat → Nat
  | [], bc => bc
  | (_, s) :: rest, bc =>
    let f := s.fields
    if f.hasTextFrame && f.isPlaceholder then
      bodyAfter include_subtitle include_footer rest
        (roleId include_subtitle include_footer f.placeholderType bc).2
    else bodyAfter include_subtitle include_footer rest bc

/-- The claim's fallback guard id: `box_<n>_<8-hex-guard>` where the guard
hashes `str(shape_id or fallback_index)`. -/
def guardBoxId (f : ShapeFields) (fi : Nat) : String :=
  let guard_source :=
    if f.shapeId ≠ 0 then pystr.natToStr f.shapeId else pystr.natToStr fi
  "box_" ++ pystr.natToStr fi ++ "_" ++
    (hashlib.sha256hexOfString guard_source).take 8

/-- Phase one of the claim's fallback pass: each text-bearing
non-placeholder shape gets its normalized name, or the guard scheme when
the name normalizes to nothing. -/
def rawFallback : List (Nat × Shape) → Nat → List (Nat × ShapeFields × String)
  | [], _ => []
  | (i, s) :: rest, fidx =>
    let f := s.fields
    if f.hasTextFrame && !f.isPlaceholder then
      let base := text_boxes.normalize_shape_name f.name
      if base = "" then (i, f, guardBoxId f (fidx + 1)) :: rawFallback rest (fidx + 1)
      else (i, f, base) :: rawFallback rest fidx
    else rawFallback rest fidx

/-- Phase two: resolve raw-id collisions in discovery order with the
numeric-suffix scheme and build the box records; `ptn` renders the
diagnostic placeholder-type string. -/
def uniquify (ptn : ShapeFields → String) (used : List String) :
    List (Nat × ShapeFields × String) → List text_boxes.BoxMeta
  | [] => []
  | (i, f, rid) :: rest =>
    let u := text_boxes.ensure_unique_id rid used
    ⟨u.1, i, f.name, ptn f⟩ :: uniquify ptn u.2 rest

/-- The used-id set after uniquifying a raw list. -/
def usedAfter (used : List String) :
    List (Nat × ShapeFields × String) → List String
  | [] => used
  | (_, _, rid) :: rest =>
    usedAfter (text_boxes.ensure_unique_id rid used).2 rest

/-- The diagnostic placeholder-type string of the primary pass. -/
def primaryPtn (f : ShapeFields) : String :=
  text_boxes.placeholder_type_name f.placeholderType

/-- The claim's description of `collect_text_boxes` (with the fallback
enabled): assign ids per the role rule and uniquify; when the primary pass
yields nothing, run the fallback pass instead and flag it. -/
def collectBoxesSpec (slide : Slide) (include_subtitle include_footer : Bool) :
    List text_boxes.BoxMeta × Bool :=
  let primary := uniquify primaryPtn []
    (rawPrimary include_subtitle include_footer slide.shapes.enum 0)
  if primary.isEmpty then
    (uniquify (fun _ => "") [] (rawFallback slide.shapes.enum 0), true)
  else (primary, false)

end textboxes_spec

section CollectEquivalence

open pptxmodel textboxes_spec

/-- The running fallback index after the fallback pass. -/
def fallbackAfter : List (Nat × Shape) → Nat → Nat
  | [], fi => fi
  | (_, s) :: rest, fi =>
    let f := s.fields
    if f.hasTextFrame && !f.isPlaceholder then
      if text_boxes.normalize_shape_name f.name = "" then fallbackAfter rest (fi + 1)
      else fallbackAfter rest fi
    else fallbackAfter rest fi

/-- A `body_<k>` id is never the empty string. -/
theorem body_prefix_ne_empty (t : String) : "body_" ++ t ≠ "" := by
  intro h
  have hd : ("body_" ++ t).data = "".data := by rw [h]
  rw [String.data_append] at hd
  have h2 := List.append_eq_nil.mp hd
  exact absurd h2.1 (by decide)

/-- The interleaved primary pass of the source equals the two-phase
assign-then-uniquify description, for every starting state. -/
theorem primary_fold_spec (incS incF : Bool) :
    ∀ (ps : List (Nat × Shape)) (boxes0 : List text_boxes.BoxMeta)
      (used0 : List String) (b0 : Nat),
      ps.foldl (text_boxes.primaryStep incS incF) ⟨boxes0, used0, b0⟩ =
        ⟨boxes0 ++ uniquify primaryPtn used0 (rawPrimary incS incF ps b0),
         usedAfter used0 (rawPrimary incS incF ps b0),
         bodyAfter incS incF ps b0⟩ := by
  intro ps
  induction ps with
  | nil =>
    intro boxes0 used0 b0
    simp [rawPrimary, uniquify, usedAfter, bodyAfter]
  | cons p rest ih =>
    intro boxes0 used0 b0
    obtain ⟨i, s⟩ := p
    obtain ⟨f, cs⟩ := s
    rw [List.foldl_cons]
    cases hTF : f.hasTextFrame with
    | false =>
      simp [text_boxes.primaryStep, rawPrimary, bodyAfter, Shape.fields, hTF, ih]
    | true =>
      cases hPH : f.isPlaceholder with
      | false =>
        simp [text_boxes.primaryStep, rawPrimary, bodyAfter, Shape.fields,
          hTF, hPH, ih]
      | true =>
        cases hpt : f.placeholderType with
        | none =>
          simp [text_boxes.primaryStep, rawPrimary, bodyAfter, roleId,
            Shape.fields, text_boxes.is_body_placeholder, hTF, hPH, hpt, ih]
        | some pp =>
          cases pp with
          | title =>
            simp [text_boxes.primaryStep, rawPrimary, bodyAfter, roleId,
              uniquify, usedAfter, primaryPtn, Shape.fields,
              text_boxes.is_body_placeholder, hTF, hPH, hpt, ih]
          | centerTitle =>
            simp [text_boxes.primaryStep, rawPrimary, bodyAfter, roleId,
              uniquify, usedAfter, primaryPtn, Shape.fields,
              text_boxes.is_body_placeholder, hTF, hPH, hpt, ih]
          | subtitle =>
            cases incS <;>
              simp [text_boxes.primaryStep, rawPrimary, bodyAfter, roleId,
                uniquify, usedAfter, primaryPtn, Shape.fields,
                text_boxes.is_body_placeholder, hTF, hPH, hpt, ih]
          | body =>
            simp [text_boxes.primaryStep, rawPrimary, bodyAfter, roleId,
              uniquify, usedAfter, primaryPtn, Shape.fields,
              text_boxes.is_body_placeholder, body_prefix_ne_empty,
              hTF, hPH, hpt, ih]
          | object =>
            simp [text_boxes.primaryStep, rawPrimary, bodyAfter, roleId,
              uniquify, usedAfter, primaryPtn, Shape.fields,
              text_boxes.is_body_placeholder, body_prefix_ne_empty,
              hTF, hPH, hpt, ih]
          | footer =>
            cases incF <;>
              simp [text_boxes.primaryStep, rawPrimary, bodyAfter, roleId,
                uniquify, usedAfter, primaryPtn, Shape.fields,
                text_boxes.is_body_placeholder, hTF, hPH, hpt, ih]
          | ph v nm =>
            simp [text_boxes.primaryStep, rawPrimary, bodyAfter, roleId,
              uniquify, usedAfter, primaryPtn, Shape.fields,
              text_boxes.is_body_placeholder, hTF, hPH, hpt, ih]

/-- The interleaved fallback pass of the source equals the two-phase
description, for every starting state. -/
theorem fallback_fold_spec :
    ∀ (ps : List (Nat × Shape)) (boxes0 : List text_boxes.BoxMeta)
      (used0 : List String) (f0 : Nat),
      ps.foldl text_boxes.fallbackStep ⟨boxes0, used0, f0⟩ =
        ⟨boxes0 ++ uniquify (fun _ => "") used0 (rawFallback ps f0),
         usedAfter used0 (rawFallback ps f0),
         fallbackAfter ps f0⟩ := by
  intro ps
  induction ps with
  | nil =>
    intro boxes0 used0 f0
    simp [rawFallback, uniquify, usedAfter, fallbackAfter]
  | cons p rest ih =>
    intro boxes0 used0 f0
    obtain ⟨i, s⟩ := p
    obtain ⟨f, cs⟩ := s
    rw [List.foldl_cons]
    cases hTF : f.hasTextFrame with
    | false =>
      simp [text_boxes.fallbackStep, rawFallback, fallbackAfter, Shape.fields,
        hTF, ih]
    | true =>
      cases hPH : f.isPlaceholder with
      | true =>
        simp [text_boxes.fallbackStep, rawFallback, fallbackAfter, Shape.fields,
          hTF, hPH, ih]
      | false =>
        by_cases hbase : text_boxes.normalize_shape_name f.name = "" <;>
          simp [text_boxes.fallbackStep, rawFallback, fallbackAfter, guardBoxId,
            uniquify, usedAfter, Shape.fields, hTF, hPH, hbase, ih]

/-- Uniquification yields no boxes exactly when the raw list is empty. -/
theorem uniquify_eq_nil_iff (ptn : ShapeFields → String) (used : List String)
    (raw : List (Nat × ShapeFields × String)) :
    uniquify ptn used raw = [] ↔ raw = [] := by
  cases raw with
  | nil => simp [uniquify]
  | cons r rest =>
    obtain ⟨i, f, rid⟩ := r
    simp [uniquify]

/-- C6: with the fallback enabled, `collect_text_boxes` is exactly the
claim's description — the title or center-title placeholder becomes
`"title"`, the subtitle only when requested, body-like placeholders become
`"body_1"`, `"body_2"`, … in shape order, the footer only when requested,
colliding ids get `_2`, `_3`, … suffixes in discovery order, and the
fallback pass over text-bearing non-placeholder shapes runs (with the
returned flag set) exactly when the primary pass yields zero boxes. -/
theorem spec_c6 (slide : Slide) (include_subtitle include_footer : Bool) :
    text_boxes.collect_text_boxes slide include_subtitle include_footer true =
      collectBoxesSpec slide include_subtitle include_footer := by
  unfold text_boxes.collect_text_boxes collectBoxesSpec
  rw [primary_fold_spec include_subtitle include_footer slide.shapes.enum [] [] 0]
  simp only [List.nil_append]
  by_cases hE :
      (uniquify primaryPtn []
        (rawPrimary include_subtitle include_footer slide.shapes.enum 0)).isEmpty
  · have hraw : rawPrimary include_subtitle include_footer slide.shapes.enum 0 = [] := by
      rw [← uniquify_eq_nil_iff primaryPtn []]
      exact List.isEmpty_iff.mp hE
    have hused : usedAfter []
        (rawPrimary include_subtitle include_footer slide.shapes.enum 0) = [] := by
      rw [hraw]; rfl
    simp only [hE, hused]
    rw [fallback_fold_spec slide.shapes.enum [] [] 0]
    simp [hE]
  · simp [hE]

end CollectEquivalence
